import Mathlib

/-!
Verification development for the DeID microservice
(`app/services/deid_service.py`, `app/api/deid_routes.py`).

The Python code is shallowly embedded: dictionaries from `json.loads`
become the inductive `JValue`, `datetime` values become `PyDateTime`
(seconds since the epoch plus an optional timezone offset), the
`DeIdentificationService` singleton becomes an explicit `DeidState`
threaded through every operation, the `Faker` pseudo-random generator
becomes a `FakerGen` stream of outputs consumed in call order, and the
SQL store behind SQLAlchemy becomes the `Store` structure of per-kind
record lists.  `hashlib.sha256` is embedded as a full executable
SHA-256 over the UTF-8 bytes of the input string.
-/

/- ===================== SHA-256 (model of hashlib.sha256) ===================== -/

/-- Truncation to a 32-bit word, written as `% 2^32` on `Nat`. -/
def w32 (n : Nat) : Nat := n % 4294967296

/-- Right rotation of a 32-bit word. -/
def rotr32 (x n : Nat) : Nat := w32 ((x >>> n) ||| (x <<< (32 - n)))

def chWord (x y z : Nat) : Nat :=
  Nat.xor (Nat.land x y) (Nat.land (Nat.xor x 4294967295) z)

def majWord (x y z : Nat) : Nat :=
  Nat.xor (Nat.xor (Nat.land x y) (Nat.land x z)) (Nat.land y z)

def bigSigma0 (x : Nat) : Nat := Nat.xor (rotr32 x 2) (Nat.xor (rotr32 x 13) (rotr32 x 22))

def bigSigma1 (x : Nat) : Nat := Nat.xor (rotr32 x 6) (Nat.xor (rotr32 x 11) (rotr32 x 25))

def smallSigma0 (x : Nat) : Nat := Nat.xor (rotr32 x 7) (Nat.xor (rotr32 x 18) (x >>> 3))

def smallSigma1 (x : Nat) : Nat := Nat.xor (rotr32 x 17) (Nat.xor (rotr32 x 19) (x >>> 10))

/-- The 64 SHA-256 round constants. -/
def shaK : List Nat :=
  [1116352408, 1899447441, 3049323471, 3921009573, 961987163,
   1508970993, 2453635748, 2870763221, 3624381080, 310598401,
   607225278, 1426881987, 1925078388, 2162078206, 2614888103,
   3248222580, 3835390401, 4022224774, 264347078, 604807628,
   770255983, 1249150122, 1555081692, 1996064986, 2554220882,
   2821834349, 2952996808, 3210313671, 3336571891, 3584528711,
   113926993, 338241895, 666307205, 773529912, 1294757372,
   1396182291, 1695183700, 1986661051, 2177026350, 2456956037,
   2730485921, 2820302411, 3259730800, 3345764771, 3516065817,
   3600352804, 4094571909, 275423344, 430227734, 506948616,
   659060556, 883997877, 958139571, 1322822218, 1537002063,
   1747873779, 1955562222, 2024104815, 2227730452, 2361852424,
   2428436474, 2756734187, 3204031479, 3329325298]

/-- SHA-256 initial hash values. -/
def shaH0 : List Nat :=
  [1779033703, 3144134277, 1013904242, 2773480762,
   1359893119, 2600822924, 528734635, 1541459225]

/-- Big-endian packing of a byte list into 32-bit words. -/
def wordsOfBytes : List Nat → List Nat
  | b0 :: b1 :: b2 :: b3 :: rest =>
      (b0 * 16777216 + b1 * 65536 + b2 * 256 + b3) :: wordsOfBytes rest
  | _ => []

/-- Extend the 16 message-schedule words by `n` further words. -/
def extendWords (ws : List Nat) : Nat → List Nat
  | 0 => ws
  | n + 1 =>
      let t := ws.length
      let w := w32 (smallSigma1 (ws.getD (t - 2) 0) + ws.getD (t - 7) 0 +
                    smallSigma0 (ws.getD (t - 15) 0) + ws.getD (t - 16) 0)
      extendWords (ws ++ [w]) n

/-- The eight SHA-256 working registers. -/
structure Hash8 where
  a : Nat
  b : Nat
  c : Nat
  d : Nat
  e : Nat
  f : Nat
  g : Nat
  h : Nat

/-- One round of the SHA-256 compression function. -/
def compressStep (st : Hash8) (wk : Nat × Nat) : Hash8 :=
  let t1 := w32 (st.h + bigSigma1 st.e + chWord st.e st.f st.g + wk.2 + wk.1)
  let t2 := w32 (bigSigma0 st.a + majWord st.a st.b st.c)
  ⟨w32 (t1 + t2), st.a, st.b, st.c, w32 (st.d + t1), st.e, st.f, st.g⟩

/-- Process one 64-byte block. -/
def compressBlock (st : Hash8) (block : List Nat) : Hash8 :=
  let ws := extendWords (wordsOfBytes block) 48
  let fin := (ws.zip shaK).foldl compressStep st
  ⟨w32 (st.a + fin.a), w32 (st.b + fin.b), w32 (st.c + fin.c), w32 (st.d + fin.d),
   w32 (st.e + fin.e), w32 (st.f + fin.f), w32 (st.g + fin.g), w32 (st.h + fin.h)⟩

/-- Split a byte list into 64-byte chunks. -/
def chunks64 (l : List Nat) : List (List Nat) :=
  if l = [] then [] else l.take 64 :: chunks64 (l.drop 64)
termination_by l.length
decreasing_by
  simp only [List.length_drop]
  cases l with
  | nil => simp_all
  | cons x xs => simp; omega

/-- SHA-256 padding: `0x80`, zeros, then the 64-bit big-endian bit length. -/
def sha256Pad (msg : List Nat) : List Nat :=
  let bitLen := msg.length * 8
  let padZeros := (64 - (msg.length + 9) % 64) % 64
  msg ++ [128] ++ List.replicate padZeros 0 ++
    ((List.range 8).reverse.map (fun i => (bitLen >>> (8 * i)) % 256))

/-- SHA-256 of a byte list, as the eight output words. -/
def sha256Words (msg : List Nat) : Hash8 :=
  (chunks64 (sha256Pad msg)).foldl compressBlock
    ⟨1779033703, 3144134277, 1013904242, 2773480762, 1359893119, 2600822924, 528734635, 1541459225⟩

/-- UTF-8 encoding of a single character (as byte values). -/
def utf8Bytes (c : Char) : List Nat :=
  let n := c.toNat
  if n < 128 then [n]
  else if n < 2048 then [192 + n / 64, 128 + n % 64]
  else if n < 65536 then [224 + n / 4096, 128 + (n / 64) % 64, 128 + n % 64]
  else [240 + n / 262144, 128 + (n / 4096) % 64, 128 + (n / 64) % 64, 128 + n % 64]

/-- UTF-8 bytes of a string, as `patient_id.encode()` produces. -/
def strBytes (s : String) : List Nat :=
  s.data.foldr (fun c acc => utf8Bytes c ++ acc) []

/-- Model of `int(hashlib.sha256(s.encode()).hexdigest(), 16)`: the SHA-256
digest of the UTF-8 bytes of `s`, read as one big-endian 256-bit natural. -/
def sha256Nat (s : String) : Nat :=
  let hs := sha256Words (strBytes s)
  [hs.a, hs.b, hs.c, hs.d, hs.e, hs.f, hs.g, hs.h].foldl
    (fun acc w => acc * 4294967296 + w) 0

/- ===================== JSON values (Python dicts from json.loads) ===================== -/

/-- A JSON value as produced by `json.loads`.  Object fields keep insertion
order, as Python dicts do.  Numbers are modelled as integers (the sample
FHIR payloads relevant to the verified claims contain no fractional
numbers in positions the code inspects). -/
inductive JValue where
  | null
  | str (s : String)
  | num (n : Int)
  | bool (b : Bool)
  | arr (items : List JValue)
  | obj (fields : List (String × JValue))
deriving Repr

/-- Python `d.get(k)` on an object: `none` when the key is missing (Python's
`None`).  On non-objects the code under verification never reaches this. -/
def jget : JValue → String → Option JValue
  | JValue.obj fields, k => (fields.find? (fun kv => kv.1 == k)).map (fun kv => kv.2)
  | _, _ => none

/-- Python `d.get(k, default)`. -/
def jgetD (v : JValue) (k : String) (d : JValue) : JValue :=
  match jget v k with
  | some w => w
  | none => d

/-- Read a string-typed field: `d.get(k)` when the value is a JSON string.
The claims under verification only exercise string-valued fields here. -/
def optStr (v : JValue) (k : String) : Option String :=
  match jget v k with
  | some (JValue.str s) => some s
  | _ => none

/-- Read `d.get(k, "")` for a string-typed field. -/
def getStrD (v : JValue) (k : String) (d : String) : String :=
  match jget v k with
  | some (JValue.str s) => s
  | _ => d

/-- Elements of a list-valued field: `d.get(k, [])`. -/
def jItems (v : JValue) (k : String) : List JValue :=
  match jget v k with
  | some (JValue.arr items) => items
  | _ => []

/-- Python `value == "lit"` on an optional fetched JSON value. -/
def jStrEq (v : Option JValue) (s : String) : Bool :=
  match v with
  | some (JValue.str t) => t == s
  | _ => false

/-- Python truthiness of a JSON value (`if v:`). -/
def jTruthy : JValue → Bool
  | JValue.null => false
  | JValue.str s => s ≠ ""
  | JValue.num n => n ≠ 0
  | JValue.bool b => b
  | JValue.arr items => !items.isEmpty
  | JValue.obj fields => !fields.isEmpty

/- ===================== json.dumps ===================== -/

def hexDigit (n : Nat) : Char :=
  if n < 10 then Char.ofNat (48 + n) else Char.ofNat (87 + n)

/-- The `\uXXXX` escape used by `json.dumps` (defaults to `ensure_ascii`). -/
def uEscape (n : Nat) : List Char :=
  ['\\', 'u', hexDigit (n / 4096 % 16), hexDigit (n / 256 % 16), hexDigit (n / 16 % 16),
   hexDigit (n % 16)]

/-- Escaping of one character inside a JSON string literal (BMP model;
surrogate pairs for astral characters are outside the model's scope). -/
def escChar (c : Char) : List Char :=
  if c = '"' then ['\\', '"']
  else if c = '\\' then ['\\', '\\']
  else if c = '\n' then ['\\', 'n']
  else if c = '\t' then ['\\', 't']
  else if c = '\r' then ['\\', 'r']
  else if c = Char.ofNat 8 then ['\\', 'b']
  else if c = Char.ofNat 12 then ['\\', 'f']
  else if c.toNat < 32 || c.toNat > 126 then uEscape c.toNat
  else [c]

/-- A JSON string literal with quotes and escapes. -/
def dumpStr (s : String) : String :=
  ⟨'"' :: s.data.foldr (fun c acc => escChar c ++ acc) ['"']⟩

mutual
/-- Model of `json.dumps` with Python's default separators. -/
def dumpJ : JValue → String
  | JValue.null => ("null")
  | JValue.str s => dumpStr s
  | JValue.num n => toString n
  | JValue.bool b => if b then ("true") else ("false")
  | JValue.arr items => ("[") ++ dumpArr items ++ ("]")
  | JValue.obj fields => ("\x7b") ++ dumpObj fields ++ ("\x7d")
def dumpArr : List JValue → String
  | [] => ("")
  | [v] => dumpJ v
  | v :: vs => dumpJ v ++ (", ") ++ dumpArr vs
def dumpObj : List (String × JValue) → String
  | [] => ("")
  | [(k, v)] => dumpStr k ++ (": ") ++ dumpJ v
  | (k, v) :: fs => dumpStr k ++ (": ") ++ dumpJ v ++ (", ") ++ dumpObj fs
end

/- ===================== substring test ===================== -/

/-- Boolean list-prefix test. -/
def leadsB : List Char → List Char → Bool
  | [], _ => true
  | _ :: _, [] => false
  | a :: as, b :: bs => a == b && leadsB as bs

/-- Boolean contiguous-substring test on character lists. -/
def substrB (needle : List Char) : List Char → Bool
  | [] => leadsB needle []
  | c :: t => leadsB needle (c :: t) || substrB needle t

/-- Whether `needle` occurs contiguously inside `hay` (Python `needle in hay`). -/
def strContainsB (needle hay : String) : Bool :=
  substrB needle.data hay.data

/- ===================== datetime (model of Python datetime) ===================== -/

/-- A `datetime.datetime` value: seconds since 1970-01-01T00:00:00 together
with the timezone offset in minutes (`none` for a naive datetime).
Sub-second precision is outside the model's scope. -/
structure PyDateTime where
  epochSec : Int
  tzMin : Option Int
deriving Repr, DecidableEq

/-- Gregorian leap-year test. -/
def isLeap (y : Nat) : Bool :=
  y % 4 == 0 && (y % 100 != 0 || y % 400 == 0)

/-- Number of days in a month. -/
def daysInMonth (y m : Nat) : Nat :=
  if m == 2 then (if isLeap y then 29 else 28)
  else if m == 4 || m == 6 || m == 9 || m == 11 then 30
  else 31

/-- Validity of a calendar date as `datetime.datetime` enforces it
(`MINYEAR = 1`). -/
def validDate (y m d : Nat) : Bool :=
  1 ≤ y && y ≤ 9999 && 1 ≤ m && m ≤ 12 && 1 ≤ d && d ≤ daysInMonth y m

/-- Days since 1970-01-01 of a civil date (standard days-from-civil
computation, for `y ≥ 1`). -/
def daysFromCivil (y m d : Nat) : Int :=
  let y1 := if m ≤ 2 then y - 1 else y
  let era := y1 / 400
  let yoe := y1 - era * 400
  let mp := (m + 9) % 12
  let doy := (153 * mp + 2) / 5 + d - 1
  let doe := yoe * 365 + yoe / 4 - yoe / 100 + doy
  ((era * 146097 + doe : Nat) : Int) - 719468

/-- Seconds since the epoch of a civil date-time. -/
def civilSec (y m d hh mm ss : Nat) : Int :=
  daysFromCivil y m d * 86400 + (hh * 3600 + mm * 60 + ss : Nat)

def digitVal (c : Char) : Option Nat :=
  if c.isDigit then some (c.toNat - 48) else none

/-- Exactly two digits. -/
def take2 : List Char → Option (Nat × List Char)
  | a :: b :: rest =>
      match digitVal a, digitVal b with
      | some x, some y => some (10 * x + y, rest)
      | _, _ => none
  | _ => none

/-- Exactly four digits. -/
def take4 : List Char → Option (Nat × List Char)
  | a :: b :: c :: d :: rest =>
      match digitVal a, digitVal b, digitVal c, digitVal d with
      | some w, some x, some y, some z => some (1000 * w + 100 * x + 10 * y + z, rest)
      | _, _, _, _ => none
  | _ => none

/-- A colon followed by two digits. -/
def takeColon2 : List Char → Option (Nat × List Char)
  | ':' :: rest => take2 rest
  | _ => none

/-- Optional fractional seconds: a dot followed by exactly three or six
digits (parsed and discarded: the model works at second granularity). -/
def dropFraction : List Char → Option (List Char)
  | '.' :: rest =>
      let digs := rest.takeWhile (fun c => c.isDigit)
      if digs.length == 3 || digs.length == 6 then some (rest.drop digs.length) else none
  | rest => some rest

/-- The `HH[:MM[:SS[.fff[fff]]]]` portion accepted by
`datetime.fromisoformat` before Python 3.11. -/
def parseTimePart (l : List Char) : Option (Nat × Nat × Nat × List Char) :=
  match take2 l with
  | none => none
  | some (hh, r1) =>
      match takeColon2 r1 with
      | none => if hh < 24 then some (hh, 0, 0, r1) else none
      | some (mm, r2) =>
          match takeColon2 r2 with
          | none => if hh < 24 && mm < 60 then some (hh, mm, 0, r2) else none
          | some (ss, r3) =>
              match dropFraction r3 with
              | none => none
              | some r4 =>
                  if hh < 24 && mm < 60 && ss < 60 then some (hh, mm, ss, r4) else none

/-- The timezone suffix `±HH:MM` accepted by `datetime.fromisoformat`. -/
def parseTzPart : List Char → Option (Option Int × List Char)
  | [] => some (none, [])
  | '+' :: rest =>
      match take2 rest with
      | some (hh, r1) =>
          match takeColon2 r1 with
          | some (mm, r2) =>
              if hh < 24 && mm < 60 then some (some ((hh * 60 + mm : Nat) : Int), r2) else none
          | none => none
      | none => none
  | '-' :: rest =>
      match take2 rest with
      | some (hh, r1) =>
          match takeColon2 r1 with
          | some (mm, r2) =>
              if hh < 24 && mm < 60 then some (some (-((hh * 60 + mm : Nat) : Int)), r2) else none
          | none => none
      | none => none
  | _ => none

/-- Model of `datetime.fromisoformat` (the strict pre-3.11 grammar:
`YYYY-MM-DD`, optionally a single separator character and
`HH[:MM[:SS[.fff[fff]]]]`, optionally `±HH:MM`). -/
def parseIsoDateTime (s : String) : Option PyDateTime :=
  match take4 s.data with
  | none => none
  | some (y, r1) =>
      match r1 with
      | '-' :: r2 =>
          match take2 r2 with
          | none => none
          | some (m, r3) =>
              match r3 with
              | '-' :: r4 =>
                  match take2 r4 with
                  | none => none
                  | some (d, r5) =>
                      if validDate y m d then
                        match r5 with
                        | [] => some ⟨civilSec y m d 0 0 0, none⟩
                        | _sep :: r6 =>
                            match parseTimePart r6 with
                            | none => none
                            | some (hh, mm, ss, r7) =>
                                match parseTzPart r7 with
                                | some (tz, []) => some ⟨civilSec y m d hh mm ss, tz⟩
                                | _ => none
                      else none
              | _ => none
      | _ => none

/-- One or two digits for `%m` (the CPython `_strptime` pattern
`1[0-2]|0[1-9]|[1-9]`, longest match first with backtracking). -/
def takeMonth (l : List Char) : Option (Nat × List Char) :=
  match take2 l with
  | some (v, rest) => if 1 ≤ v && v ≤ 12 then some (v, rest) else
      match l with
      | c :: rest1 => match digitVal c with
        | some x => if 1 ≤ x then some (x, rest1) else none
        | none => none
      | [] => none
  | none =>
      match l with
      | c :: rest1 => match digitVal c with
        | some x => if 1 ≤ x then some (x, rest1) else none
        | none => none
      | [] => none

/-- One or two digits for `%d` (the CPython `_strptime` pattern
`3[01]|[12]\d|0[1-9]|[1-9]`). -/
def takeDay (l : List Char) : Option (Nat × List Char) :=
  match take2 l with
  | some (v, rest) => if 1 ≤ v && v ≤ 31 then some (v, rest) else
      match l with
      | c :: rest1 => match digitVal c with
        | some x => if 1 ≤ x then some (x, rest1) else none
        | none => none
      | [] => none
  | none =>
      match l with
      | c :: rest1 => match digitVal c with
        | some x => if 1 ≤ x then some (x, rest1) else none
        | none => none
      | [] => none

/-- Model of `datetime.strptime(s, "%Y-%m-%d")`: a four-digit year, one or
two digit month and day, full match, validated by the `datetime`
constructor. -/
def parseDateOnly (s : String) : Option PyDateTime :=
  match take4 s.data with
  | none => none
  | some (y, r1) =>
      match r1 with
      | '-' :: r2 =>
          match takeMonth r2 with
          | none => none
          | some (m, r3) =>
              match r3 with
              | '-' :: r4 =>
                  match takeDay r4 with
                  | some (d, []) =>
                      if validDate y m d then some ⟨civilSec y m d 0 0 0, none⟩ else none
                  | _ => none
              | _ => none
      | _ => none

/-- Python `date_str.replace('Z', '+00:00')`: every `'Z'` becomes
`"+00:00"`. -/
def replaceZ : List Char → List Char
  | [] => []
  | c :: rest =>
      if c = 'Z' then '+' :: '0' :: '0' :: ':' :: '0' :: '0' :: replaceZ rest
      else c :: replaceZ rest

def zNormalize (s : String) : String :=
  ⟨replaceZ s.data⟩

/-- Embedding of `parse_fhir_date` (`deid_routes.py`): falsy input yields
`None`; otherwise try `datetime.fromisoformat` on the input with every
`'Z'` replaced by `'+00:00'`, and on failure fall back to
`datetime.strptime(date_str, '%Y-%m-%d')`; any failure yields `None`. -/
def parse_fhir_date (date_str : Option String) : Option PyDateTime :=
  match date_str with
  | none => none
  | some s =>
      if s = "" then none
      else
        match parseIsoDateTime (zNormalize s) with
        | some dt => some dt
        | none => parseDateOnly s

/- ===================== DeIdentificationService ===================== -/

/-- The outputs of the `Faker` instance, as streams indexed by how many
values have been drawn so far.  A call such as `fake.first_name()`
consumes one draw and advances the generator. -/
structure FakerGen where
  firstName : Nat → String
  lastName : Nat → String
  fullName : Nat → String
  city : Nat → String
  streetAddress : Nat → String
  zipcode : Nat → String
  phoneNumber : Nat → String
  email : Nat → String

/-- The mutable state of the `DeIdentificationService` singleton: the five
consistency caches (association lists in insertion order, as Python dicts)
plus the number of draws made from the Faker generator. -/
structure DeidState where
  nameCache : List (String × String)
  addressCache : List (String × String)
  phoneCache : List (String × String)
  emailCache : List (String × String)
  dateShiftCache : List (String × Int)
  rng : Nat
deriving Repr

/-- A freshly constructed `DeIdentificationService` (empty caches). -/
def initDeidState : DeidState :=
  ⟨[], [], [], [], [], 0⟩

/-- Embedding of `_get_deterministic_shift`: memoized
`(int(sha256(patient_id.encode()).hexdigest(), 16) % 731) - 365`. -/
def getDeterministicShift (s : DeidState) (patient_id : String) : Int × DeidState :=
  match s.dateShiftCache.lookup patient_id with
  | some v => (v, s)
  | none =>
      let hashVal : Nat := sha256Nat patient_id
      let shiftDays : Int := ((hashVal % 731 : Nat) : Int) - 365
      (shiftDays, { s with dateShiftCache := s.dateShiftCache ++ [(patient_id, shiftDays)] })

/-- Embedding of `anonymize_name`: consistent via `_name_cache` keyed by
`f"{name_type}:{original_name}"`; falsy input returns `None`. -/
def anonymize_name (gen : FakerGen) (s : DeidState) (original_name : Option String)
    (name_type : String) : Option String × DeidState :=
  match original_name with
  | none => (none, s)
  | some orig =>
      if orig = "" then (none, s)
      else
        let key := name_type ++ (":") ++ orig
        match s.nameCache.lookup key with
        | some v => (some v, s)
        | none =>
            let v := if name_type = "given" then gen.firstName s.rng else gen.lastName s.rng
            (some v, { s with nameCache := s.nameCache ++ [(key, v)], rng := s.rng + 1 })

/-- Embedding of `anonymize_address` (consistent via `_address_cache`). -/
def anonymize_address (gen : FakerGen) (s : DeidState) (original : Option String) :
    Option String × DeidState :=
  match original with
  | none => (none, s)
  | some orig =>
      if orig = "" then (none, s)
      else
        match s.addressCache.lookup orig with
        | some v => (some v, s)
        | none =>
            let v := gen.streetAddress s.rng
            (some v, { s with addressCache := s.addressCache ++ [(orig, v)], rng := s.rng + 1 })

/-- Embedding of `anonymize_city`: a fresh fake city on every call, no cache. -/
def anonymize_city (gen : FakerGen) (s : DeidState) (original : Option String) :
    Option String × DeidState :=
  match original with
  | none => (none, s)
  | some orig =>
      if orig = "" then (none, s)
      else (some (gen.city s.rng), { s with rng := s.rng + 1 })

/-- Embedding of `anonymize_postal_code`: a fresh fake zipcode. -/
def anonymize_postal_code (gen : FakerGen) (s : DeidState) (original : Option String) :
    Option String × DeidState :=
  match original with
  | none => (none, s)
  | some orig =>
      if orig = "" then (none, s)
      else (some (gen.zipcode s.rng), { s with rng := s.rng + 1 })

/-- Embedding of `anonymize_phone` (consistent via `_phone_cache`). -/
def anonymize_phone (gen : FakerGen) (s : DeidState) (original : Option String) :
    Option String × DeidState :=
  match original with
  | none => (none, s)
  | some orig =>
      if orig = "" then (none, s)
      else
        match s.phoneCache.lookup orig with
        | some v => (some v, s)
        | none =>
            let v := gen.phoneNumber s.rng
            (some v, { s with phoneCache := s.phoneCache ++ [(orig, v)], rng := s.rng + 1 })

/-- Embedding of `anonymize_email` (consistent via `_email_cache`). -/
def anonymize_email (gen : FakerGen) (s : DeidState) (original : Option String) :
    Option String × DeidState :=
  match original with
  | none => (none, s)
  | some orig =>
      if orig = "" then (none, s)
      else
        match s.emailCache.lookup orig with
        | some v => (some v, s)
        | none =>
            let v := gen.email s.rng
            (some v, { s with emailCache := s.emailCache ++ [(orig, v)], rng := s.rng + 1 })

/-- Embedding of `shift_date`: `original_date + timedelta(days=shift)` with
the memoized per-patient shift; falsy input returns `None`. -/
def shift_date (s : DeidState) (original_date : Option PyDateTime) (patient_id : String) :
    Option PyDateTime × DeidState :=
  match original_date with
  | none => (none, s)
  | some d =>
      let p := getDeterministicShift s patient_id
      (some { d with epochSec := d.epochSec + 86400 * p.1 }, p.2)

/-- Embedding of `anonymize_provider_name`: draws `fake.name()` directly,
with no cache; falsy input returns `None`. -/
def anonymize_provider_name (gen : FakerGen) (s : DeidState) (original : Option String) :
    Option String × DeidState :=
  match original with
  | none => (none, s)
  | some orig =>
      if orig = "" then (none, s)
      else (some (gen.fullName s.rng), { s with rng := s.rng + 1 })

/-- Embedding of `anonymize_location`: `f"{fake.city()} Medical Center"`. -/
def anonymize_location (gen : FakerGen) (s : DeidState) (original : Option String) :
    Option String × DeidState :=
  match original with
  | none => (none, s)
  | some orig =>
      if orig = "" then (none, s)
      else (some (gen.city s.rng ++ (" Medical Center")), { s with rng := s.rng + 1 })

/-- Embedding of `remove_free_text_pii`: falsy input returns `None`,
anything else the fixed sentinel. -/
def remove_free_text_pii (text : Option String) : Option String :=
  match text with
  | none => none
  | some t => if t = "" then none else some ("[REDACTED - Clinical Note]")

/- ===================== reference resolution ===================== -/

/-- Python `ref.split("/")` on the character list. -/
def splitOnSlash : List Char → List (List Char)
  | [] => [[]]
  | c :: cs =>
      if c = '/' then [] :: splitOnSlash cs
      else
        match splitOnSlash cs with
        | [] => [[c]]
        | g :: gs => (c :: g) :: gs

/-- Python `ref.split("/")[-1]`. -/
def lastSegment (ref : String) : String :=
  ⟨(splitOnSlash ref.data).getLastD []⟩

/-- Python `"/" in ref`. -/
def hasSlash (ref : String) : Bool :=
  ref.data.contains '/'

/-- The patient-reference rule used by every `process_*` function:
`ref.split("/")[-1] if "/" in ref else ref`. -/
def resolveRefSelf (ref : String) : String :=
  if hasSlash ref then lastSegment ref else ref

/-- The encounter-reference rule:
`ref.split("/")[-1] if "/" in ref else None`. -/
def resolveRefOpt (ref : String) : Option String :=
  if hasSlash ref then some (lastSegment ref) else none

/-- A JSON value when it is a string (model scope: the inspected FHIR
fields are strings). -/
def asStr? : JValue → Option String
  | JValue.str s => some s
  | _ => none

/-- Python `obj.get("coding", [{}])[0]` (first coding entry; the model
returns `{}` for an out-of-range index). -/
def coding0 (v : JValue) : JValue :=
  (match jget v ("coding") with
   | some (JValue.arr l) => l
   | _ => [JValue.obj []]).headD (JValue.obj [])

/-- Python `k in d`. -/
def jHas (v : JValue) (k : String) : Bool :=
  (jget v k).isSome

/- ===================== sanitized records (SQLAlchemy models) ===================== -/

structure PatientRecord where
  resource_id : Option String
  given_name : Option String
  family_name : Option String
  birth_date : Option PyDateTime
  gender : Option String
  address_line : Option String
  city : Option String
  state : Option String
  postal_code : Option String
  phone : Option String
  email : Option String
  raw_fhir_data : String
deriving Repr

structure EncounterRecord where
  resource_id : Option String
  patient_resource_id : String
  status : Option String
  class_code : Option String
  type_code : Option String
  start_date : Option PyDateTime
  end_date : Option PyDateTime
  length_of_stay_days : Option Int
  location_name : Option String
  raw_fhir_data : String
deriving Repr

structure ConditionRecord where
  resource_id : Option String
  patient_resource_id : String
  encounter_resource_id : Option String
  code : Option String
  display : Option String
  clinical_status : Option String
  verification_status : Option String
  category : Option String
  onset_date : Option PyDateTime
  recorded_date : Option PyDateTime
  raw_fhir_data : String
deriving Repr

structure ObservationRecord where
  resource_id : Option String
  patient_resource_id : String
  encounter_resource_id : Option String
  status : Option String
  category : Option String
  code : Option String
  display : Option String
  value_quantity : Option JValue
  value_unit : Option String
  value_string : Option JValue
  effective_date : Option PyDateTime
  issued_date : Option PyDateTime
  raw_fhir_data : String
deriving Repr

structure MedicationRequestRecord where
  resource_id : Option String
  patient_resource_id : String
  encounter_resource_id : Option String
  status : Option String
  intent : Option String
  medication_code : Option String
  medication_display : Option String
  dosage_text : Option String
  requester_display : Option String
  authored_on : Option PyDateTime
  raw_fhir_data : String
deriving Repr

structure ProcedureRecord where
  resource_id : Option String
  patient_resource_id : String
  encounter_resource_id : Option String
  status : Option String
  code : Option String
  display : Option String
  category : Option String
  performer_display : Option String
  performed_date : Option PyDateTime
  raw_fhir_data : String
deriving Repr

structure DiagnosticReportRecord where
  resource_id : Option String
  patient_resource_id : String
  encounter_resource_id : Option String
  status : Option String
  category : Option String
  code : Option String
  display : Option String
  conclusion : Option String
  effective_date : Option PyDateTime
  issued_date : Option PyDateTime
  raw_fhir_data : String
deriving Repr

structure DocumentReferenceRecord where
  resource_id : Option String
  patient_resource_id : String
  encounter_resource_id : Option String
  status : Option String
  doc_status : Option String
  type_code : Option String
  type_display : Option String
  category_code : Option String
  description : Option String
  author_display : Option String
  custodian_display : Option String
  created_date : Option PyDateTime
  raw_fhir_data : String
deriving Repr

structure AllergyIntoleranceRecord where
  resource_id : Option String
  patient_resource_id : String
  encounter_resource_id : Option String
  clinical_status : Option String
  verification_status : Option String
  type : Option String
  category : Option String
  criticality : Option String
  code : Option String
  display : Option String
  recorder_display : Option String
  onset_date : Option PyDateTime
  recorded_date : Option PyDateTime
  raw_fhir_data : String
deriving Repr

structure ImmunizationRecord where
  resource_id : Option String
  patient_resource_id : String
  encounter_resource_id : Option String
  status : Option String
  status_reason_code : Option String
  vaccine_code : Option String
  vaccine_display : Option String
  primary_source : Option JValue
  performer_display : Option String
  location_display : Option String
  lot_number : Option String
  occurrence_date : Option PyDateTime
  recorded_date : Option PyDateTime
  raw_fhir_data : String
deriving Repr

structure PractitionerRecord where
  resource_id : Option String
  given_name : Option String
  family_name : Option String
  prefixVal : Option String
  gender : Option String
  birth_date : Option PyDateTime
  npi : Option String
  phone : Option String
  email : Option String
  address_line : Option String
  city : Option String
  state : Option String
  postal_code : Option String
  active : Option JValue
  raw_fhir_data : String
deriving Repr

structure PractitionerRoleRecord where
  resource_id : Option String
  practitioner_resource_id : Option String
  organization_resource_id : Option String
  active : Option JValue
  role_code : Option String
  role_display : Option String
  specialty_code : Option String
  specialty_display : Option String
  location_resource_id : Option String
  phone : Option String
  email : Option String
  raw_fhir_data : String
deriving Repr

structure OrganizationRecord where
  resource_id : Option String
  name : Option String
  active : Option JValue
  type_code : Option String
  type_display : Option String
  npi : Option String
  phone : Option String
  email : Option String
  address_line : Option String
  city : Option String
  state : Option String
  postal_code : Option String
  raw_fhir_data : String
deriving Repr

/-- The PostgreSQL store: one table per record kind. -/
structure Store where
  patients : List PatientRecord
  encounters : List EncounterRecord
  conditions : List ConditionRecord
  observations : List ObservationRecord
  medication_requests : List MedicationRequestRecord
  procedures : List ProcedureRecord
  diagnostic_reports : List DiagnosticReportRecord
  document_references : List DocumentReferenceRecord
  allergy_intolerances : List AllergyIntoleranceRecord
  immunizations : List ImmunizationRecord
  practitioners : List PractitionerRecord
  practitioner_roles : List PractitionerRoleRecord
  organizations : List OrganizationRecord
deriving Repr

def emptyStore : Store :=
  ⟨[], [], [], [], [], [], [], [], [], [], [], [], []⟩

/- ===================== per-kind processing functions ===================== -/

/-- Embedding of `process_patient` (`deid_routes.py:49`): return the
existing record when the `resource_id` is already stored, otherwise
extract, de-identify and append.  `raw_fhir_data` is
`json.dumps(fhir_resource)` — the incoming resource itself. -/
def process_patient (gen : FakerGen) (fhir_resource : JValue) (db : Store) (s : DeidState) :
    PatientRecord × Store × DeidState :=
  let resource_id := optStr fhir_resource ("id")
  match db.patients.find? (fun p => p.resource_id == resource_id) with
  | some existing => (existing, db, s)
  | none =>
      let name_list := jItems fhir_resource ("name")
      let official_name :=
        (name_list.find? (fun n => jStrEq (jget n ("use")) ("official"))).getD
          (name_list.headD (JValue.obj []))
      let given_names := jItems official_name ("given")
      let given_name := given_names.head?.bind asStr?
      let family_name := optStr official_name ("family")
      let address_list := jItems fhir_resource ("address")
      let a0 := address_list.headD (JValue.obj [])
      let lineList :=
        match jget a0 ("line") with
        | some (JValue.arr l) => l
        | _ => [JValue.str ("")]
      let address_line :=
        if address_list.isEmpty then none else asStr? (lineList.headD (JValue.str ("")))
      let city := if address_list.isEmpty then none else optStr a0 ("city")
      let state := if address_list.isEmpty then none else optStr a0 ("state")
      let postal_code := if address_list.isEmpty then none else optStr a0 ("postalCode")
      let telecom_list := jItems fhir_resource ("telecom")
      let phone :=
        (telecom_list.find? (fun t => jStrEq (jget t ("system")) ("phone"))).bind
          (fun t => optStr t ("value"))
      let email :=
        (telecom_list.find? (fun t => jStrEq (jget t ("system")) ("email"))).bind
          (fun t => optStr t ("value"))
      let birth_date_str := optStr fhir_resource ("birthDate")
      let birth_date :=
        match birth_date_str with
        | none => none
        | some bs => if bs = "" then none else parse_fhir_date (some bs)
      let gender := optStr fhir_resource ("gender")
      let q1 := anonymize_name gen s given_name ("given")
      let q2 := anonymize_name gen q1.2 family_name ("family")
      let q3 := shift_date q2.2 birth_date (resource_id.getD (""))
      let q4 := anonymize_address gen q3.2 address_line
      let q5 := anonymize_city gen q4.2 city
      let q6 := anonymize_postal_code gen q5.2 postal_code
      let q7 := anonymize_phone gen q6.2 phone
      let q8 := anonymize_email gen q7.2 email
      let dbRec : PatientRecord :=
        ⟨resource_id, q1.1, q2.1, q3.1, gender, q4.1, q5.1,
         state, q6.1, q7.1, q8.1, dumpJ fhir_resource⟩
      (dbRec, { db with patients := db.patients ++ [dbRec] }, q8.2)

/-- Embedding of `process_encounter` (`deid_routes.py:104`). -/
def process_encounter (gen : FakerGen) (fhir_resource : JValue) (db : Store) (s : DeidState) :
    EncounterRecord × Store × DeidState :=
  let resource_id := optStr fhir_resource ("id")
  match db.encounters.find? (fun p => p.resource_id == resource_id) with
  | some existing => (existing, db, s)
  | none =>
      let patient_ref := getStrD (jgetD fhir_resource ("subject") (JValue.obj [])) ("reference") ("")
      let patient_resource_id := resolveRefSelf patient_ref
      let status := optStr fhir_resource ("status")
      let class_obj := jgetD fhir_resource ("class") (JValue.obj [])
      let class_code := optStr class_obj ("code")
      let type_list := jItems fhir_resource ("type")
      let type_code :=
        match type_list.head? with
        | some t => optStr (coding0 t) ("code")
        | none => none
      let period := jgetD fhir_resource ("period") (JValue.obj [])
      let start_date0 := parse_fhir_date (optStr period ("start"))
      let end_date0 := parse_fhir_date (optStr period ("end"))
      let length_of_stay :=
        match start_date0, end_date0 with
        | some sd, some ed => some (Int.fdiv (ed.epochSec - sd.epochSec) 86400)
        | _, _ => none
      let q1 := shift_date s start_date0 patient_resource_id
      let q2 := shift_date q1.2 end_date0 patient_resource_id
      let location_list := jItems fhir_resource ("location")
      let location_name0 :=
        match location_list.head? with
        | some l => optStr (jgetD l ("location") (JValue.obj [])) ("display")
        | none => none
      let q3 := anonymize_location gen q2.2 location_name0
      let dbRec : EncounterRecord :=
        ⟨resource_id, patient_resource_id, status, class_code, type_code, q1.1, q2.1,
         length_of_stay, q3.1, dumpJ fhir_resource⟩
      (dbRec, { db with encounters := db.encounters ++ [dbRec] }, q3.2)

/-- Embedding of `process_condition` (`deid_routes.py:159`). -/
def process_condition (gen : FakerGen) (fhir_resource : JValue) (db : Store) (s : DeidState) :
    ConditionRecord × Store × DeidState :=
  let _ := gen
  let resource_id := optStr fhir_resource ("id")
  match db.conditions.find? (fun p => p.resource_id == resource_id) with
  | some existing => (existing, db, s)
  | none =>
      let patient_ref := getStrD (jgetD fhir_resource ("subject") (JValue.obj [])) ("reference") ("")
      let patient_resource_id := resolveRefSelf patient_ref
      let encounter_ref := getStrD (jgetD fhir_resource ("encounter") (JValue.obj [])) ("reference") ("")
      let encounter_resource_id := resolveRefOpt encounter_ref
      let code_data := coding0 (jgetD fhir_resource ("code") (JValue.obj []))
      let code := optStr code_data ("code")
      let display := optStr code_data ("display")
      let clinical_status := optStr (coding0 (jgetD fhir_resource ("clinicalStatus") (JValue.obj []))) ("code")
      let verification_status := optStr (coding0 (jgetD fhir_resource ("verificationStatus") (JValue.obj []))) ("code")
      let category_list := jItems fhir_resource ("category")
      let category :=
        match category_list.head? with
        | some c => optStr (coding0 c) ("code")
        | none => none
      let onset_date0 := parse_fhir_date (optStr fhir_resource ("onsetDateTime"))
      let recorded_date0 := parse_fhir_date (optStr fhir_resource ("recordedDate"))
      let q1 := shift_date s onset_date0 patient_resource_id
      let q2 := shift_date q1.2 recorded_date0 patient_resource_id
      let dbRec : ConditionRecord :=
        ⟨resource_id, patient_resource_id, encounter_resource_id, code, display, clinical_status,
         verification_status, category, q1.1, q2.1, dumpJ fhir_resource⟩
      (dbRec, { db with conditions := db.conditions ++ [dbRec] }, q2.2)

/-- Embedding of `process_observation` (`deid_routes.py:209`). -/
def process_observation (gen : FakerGen) (fhir_resource : JValue) (db : Store) (s : DeidState) :
    ObservationRecord × Store × DeidState :=
  let _ := gen
  let resource_id := optStr fhir_resource ("id")
  match db.observations.find? (fun p => p.resource_id == resource_id) with
  | some existing => (existing, db, s)
  | none =>
      let patient_ref := getStrD (jgetD fhir_resource ("subject") (JValue.obj [])) ("reference") ("")
      let patient_resource_id := resolveRefSelf patient_ref
      let encounter_ref := getStrD (jgetD fhir_resource ("encounter") (JValue.obj [])) ("reference") ("")
      let encounter_resource_id := resolveRefOpt encounter_ref
      let status := optStr fhir_resource ("status")
      let category_list := jItems fhir_resource ("category")
      let category :=
        match category_list.head? with
        | some c => optStr (coding0 c) ("code")
        | none => none
      let code_data := coding0 (jgetD fhir_resource ("code") (JValue.obj []))
      let code := optStr code_data ("code")
      let display := optStr code_data ("display")
      let vq := jgetD fhir_resource ("valueQuantity") (JValue.obj [])
      let value_quantity :=
        if jHas fhir_resource ("valueQuantity") then jget vq ("value") else none
      let value_unit :=
        if jHas fhir_resource ("valueQuantity") then optStr vq ("unit") else none
      let value_string :=
        if jHas fhir_resource ("valueQuantity") then none
        else if jHas fhir_resource ("valueString") then jget fhir_resource ("valueString")
        else none
      let effective_date0 := parse_fhir_date (optStr fhir_resource ("effectiveDateTime"))
      let issued_date0 := parse_fhir_date (optStr fhir_resource ("issued"))
      let q1 := shift_date s effective_date0 patient_resource_id
      let q2 := shift_date q1.2 issued_date0 patient_resource_id
      let dbRec : ObservationRecord :=
        ⟨resource_id, patient_resource_id, encounter_resource_id, status, category, code, display,
         value_quantity, value_unit, value_string, q1.1, q2.1, dumpJ fhir_resource⟩
      (dbRec, { db with observations := db.observations ++ [dbRec] }, q2.2)

/-- Embedding of `process_medication_request` (`deid_routes.py:271`). -/
def process_medication_request (gen : FakerGen) (fhir_resource : JValue) (db : Store)
    (s : DeidState) : MedicationRequestRecord × Store × DeidState :=
  let resource_id := optStr fhir_resource ("id")
  match db.medication_requests.find? (fun p => p.resource_id == resource_id) with
  | some existing => (existing, db, s)
  | none =>
      let patient_ref := getStrD (jgetD fhir_resource ("subject") (JValue.obj [])) ("reference") ("")
      let patient_resource_id := resolveRefSelf patient_ref
      let encounter_ref := getStrD (jgetD fhir_resource ("encounter") (JValue.obj [])) ("reference") ("")
      let encounter_resource_id := resolveRefOpt encounter_ref
      let status := optStr fhir_resource ("status")
      let intent := optStr fhir_resource ("intent")
      let medication_data := coding0 (jgetD fhir_resource ("medicationCodeableConcept") (JValue.obj []))
      let medication_code := optStr medication_data ("code")
      let medication_display := optStr medication_data ("display")
      let dosage_list := jItems fhir_resource ("dosageInstruction")
      let dosage_text := dosage_list.head?.bind (fun d => optStr d ("text"))
      let requester_display0 := optStr (jgetD fhir_resource ("requester") (JValue.obj [])) ("display")
      let q1 := anonymize_provider_name gen s requester_display0
      let authored_on0 := parse_fhir_date (optStr fhir_resource ("authoredOn"))
      let q2 := shift_date q1.2 authored_on0 patient_resource_id
      let dbRec : MedicationRequestRecord :=
        ⟨resource_id, patient_resource_id, encounter_resource_id, status, intent, medication_code,
         medication_display, dosage_text, q1.1, q2.1, dumpJ fhir_resource⟩
      (dbRec, { db with medication_requests := db.medication_requests ++ [dbRec] }, q2.2)

/-- Embedding of `process_procedure` (`deid_routes.py:323`). -/
def process_procedure (gen : FakerGen) (fhir_resource : JValue) (db : Store) (s : DeidState) :
    ProcedureRecord × Store × DeidState :=
  let resource_id := optStr fhir_resource ("id")
  match db.procedures.find? (fun p => p.resource_id == resource_id) with
  | some existing => (existing, db, s)
  | none =>
      let patient_ref := getStrD (jgetD fhir_resource ("subject") (JValue.obj [])) ("reference") ("")
      let patient_resource_id := resolveRefSelf patient_ref
      let encounter_ref := getStrD (jgetD fhir_resource ("encounter") (JValue.obj [])) ("reference") ("")
      let encounter_resource_id := resolveRefOpt encounter_ref
      let status := optStr fhir_resource ("status")
      let code_data := coding0 (jgetD fhir_resource ("code") (JValue.obj []))
      let code := optStr code_data ("code")
      let display := optStr code_data ("display")
      let category_data := coding0 (jgetD fhir_resource ("category") (JValue.obj []))
      let category := optStr category_data ("code")
      let performer_list := jItems fhir_resource ("performer")
      let performer_display0 :=
        match performer_list.head? with
        | some p => optStr (jgetD p ("actor") (JValue.obj [])) ("display")
        | none => none
      let q1 := anonymize_provider_name gen s performer_display0
      let performed_period := jgetD fhir_resource ("performedPeriod") (JValue.obj [])
      let performed_start := parse_fhir_date (optStr performed_period ("start"))
      let q2 := shift_date q1.2 performed_start patient_resource_id
      let dbRec : ProcedureRecord :=
        ⟨resource_id, patient_resource_id, encounter_resource_id, status, code, display, category,
         q1.1, q2.1, dumpJ fhir_resource⟩
      (dbRec, { db with procedures := db.procedures ++ [dbRec] }, q2.2)

/-- Embedding of `process_diagnostic_report` (`deid_routes.py:376`). -/
def process_diagnostic_report (gen : FakerGen) (fhir_resource : JValue) (db : Store)
    (s : DeidState) : DiagnosticReportRecord × Store × DeidState :=
  let _ := gen
  let resource_id := optStr fhir_resource ("id")
  match db.diagnostic_reports.find? (fun p => p.resource_id == resource_id) with
  | some existing => (existing, db, s)
  | none =>
      let patient_ref := getStrD (jgetD fhir_resource ("subject") (JValue.obj [])) ("reference") ("")
      let patient_resource_id := resolveRefSelf patient_ref
      let encounter_ref := getStrD (jgetD fhir_resource ("encounter") (JValue.obj [])) ("reference") ("")
      let encounter_resource_id := resolveRefOpt encounter_ref
      let status := optStr fhir_resource ("status")
      let category_list := jItems fhir_resource ("category")
      let category :=
        match category_list.head? with
        | some c => optStr (coding0 c) ("code")
        | none => none
      let code_data := coding0 (jgetD fhir_resource ("code") (JValue.obj []))
      let code := optStr code_data ("code")
      let display := optStr code_data ("display")
      let conclusion := remove_free_text_pii (optStr fhir_resource ("conclusion"))
      let effective_date0 := parse_fhir_date (optStr fhir_resource ("effectiveDateTime"))
      let issued_date0 := parse_fhir_date (optStr fhir_resource ("issued"))
      let q1 := shift_date s effective_date0 patient_resource_id
      let q2 := shift_date q1.2 issued_date0 patient_resource_id
      let dbRec : DiagnosticReportRecord :=
        ⟨resource_id, patient_resource_id, encounter_resource_id, status, category, code, display,
         conclusion, q1.1, q2.1, dumpJ fhir_resource⟩
      (dbRec, { db with diagnostic_reports := db.diagnostic_reports ++ [dbRec] }, q2.2)

/-- Embedding of `process_document_reference` (`deid_routes.py:434`). -/
def process_document_reference (gen : FakerGen) (fhir_resource : JValue) (db : Store)
    (s : DeidState) : DocumentReferenceRecord × Store × DeidState :=
  let resource_id := optStr fhir_resource ("id")
  match db.document_references.find? (fun p => p.resource_id == resource_id) with
  | some existing => (existing, db, s)
  | none =>
      let patient_ref := getStrD (jgetD fhir_resource ("subject") (JValue.obj [])) ("reference") ("")
      let patient_resource_id := resolveRefSelf patient_ref
      let context := jgetD fhir_resource ("context") (JValue.obj [])
      let encounter_list := jItems context ("encounter")
      let encounter_ref :=
        match encounter_list.head? with
        | some e => getStrD e ("reference") ("")
        | none => ""
      let encounter_resource_id := resolveRefOpt encounter_ref
      let status := optStr fhir_resource ("status")
      let doc_status := optStr fhir_resource ("docStatus")
      let type_obj := coding0 (jgetD fhir_resource ("type") (JValue.obj []))
      let type_code := optStr type_obj ("code")
      let type_display := optStr type_obj ("display")
      let category_list := jItems fhir_resource ("category")
      let category_code :=
        match category_list.head? with
        | some c => optStr (coding0 c) ("code")
        | none => none
      let description := remove_free_text_pii (optStr fhir_resource ("description"))
      let author_list := jItems fhir_resource ("author")
      let author_display0 := author_list.head?.bind (fun a => optStr a ("display"))
      let q1 := anonymize_provider_name gen s author_display0
      let custodian := jgetD fhir_resource ("custodian") (JValue.obj [])
      let custodian_display0 := optStr custodian ("display")
      let q2 := anonymize_location gen q1.2 custodian_display0
      let created_date0 := parse_fhir_date (optStr fhir_resource ("date"))
      let q3 := shift_date q2.2 created_date0 patient_resource_id
      let dbRec : DocumentReferenceRecord :=
        ⟨resource_id, patient_resource_id, encounter_resource_id, status, doc_status, type_code,
         type_display, category_code, description, q1.1, q2.1, q3.1,
         dumpJ fhir_resource⟩
      (dbRec, { db with document_references := db.document_references ++ [dbRec] }, q3.2)

/-- Embedding of `process_allergy_intolerance` (`deid_routes.py:508`). -/
def process_allergy_intolerance (gen : FakerGen) (fhir_resource : JValue) (db : Store)
    (s : DeidState) : AllergyIntoleranceRecord × Store × DeidState :=
  let resource_id := optStr fhir_resource ("id")
  match db.allergy_intolerances.find? (fun p => p.resource_id == resource_id) with
  | some existing => (existing, db, s)
  | none =>
      let patient_ref := getStrD (jgetD fhir_resource ("patient") (JValue.obj [])) ("reference") ("")
      let patient_resource_id := resolveRefSelf patient_ref
      let encounter_ref := getStrD (jgetD fhir_resource ("encounter") (JValue.obj [])) ("reference") ("")
      let encounter_resource_id := resolveRefOpt encounter_ref
      let clinical_status := optStr (coding0 (jgetD fhir_resource ("clinicalStatus") (JValue.obj []))) ("code")
      let verification_status := optStr (coding0 (jgetD fhir_resource ("verificationStatus") (JValue.obj []))) ("code")
      let allergy_type := optStr fhir_resource ("type")
      let category_list := jItems fhir_resource ("category")
      let category := category_list.head?.bind asStr?
      let criticality := optStr fhir_resource ("criticality")
      let code_obj := coding0 (jgetD fhir_resource ("code") (JValue.obj []))
      let code := optStr code_obj ("code")
      let display := optStr code_obj ("display")
      let recorder := jgetD fhir_resource ("recorder") (JValue.obj [])
      let recorder_display0 := optStr recorder ("display")
      let q1 := anonymize_provider_name gen s recorder_display0
      let onset_date0 := parse_fhir_date (optStr fhir_resource ("onsetDateTime"))
      let recorded_date0 := parse_fhir_date (optStr fhir_resource ("recordedDate"))
      let q2 := shift_date q1.2 onset_date0 patient_resource_id
      let q3 := shift_date q2.2 recorded_date0 patient_resource_id
      let dbRec : AllergyIntoleranceRecord :=
        ⟨resource_id, patient_resource_id, encounter_resource_id, clinical_status,
         verification_status, allergy_type, category, criticality, code, display, q1.1,
         q2.1, q3.1, dumpJ fhir_resource⟩
      (dbRec, { db with allergy_intolerances := db.allergy_intolerances ++ [dbRec] }, q3.2)

/-- Embedding of `process_immunization` (`deid_routes.py:579`). -/
def process_immunization (gen : FakerGen) (fhir_resource : JValue) (db : Store)
    (s : DeidState) : ImmunizationRecord × Store × DeidState :=
  let resource_id := optStr fhir_resource ("id")
  match db.immunizations.find? (fun p => p.resource_id == resource_id) with
  | some existing => (existing, db, s)
  | none =>
      let patient_ref := getStrD (jgetD fhir_resource ("patient") (JValue.obj [])) ("reference") ("")
      let patient_resource_id := resolveRefSelf patient_ref
      let encounter_ref := getStrD (jgetD fhir_resource ("encounter") (JValue.obj [])) ("reference") ("")
      let encounter_resource_id := resolveRefOpt encounter_ref
      let status := optStr fhir_resource ("status")
      let status_reason := coding0 (jgetD fhir_resource ("statusReason") (JValue.obj []))
      let status_reason_code := optStr status_reason ("code")
      let vaccine_obj := coding0 (jgetD fhir_resource ("vaccineCode") (JValue.obj []))
      let vaccine_code := optStr vaccine_obj ("code")
      let vaccine_display := optStr vaccine_obj ("display")
      let primary_source := jget fhir_resource ("primarySource")
      let performer_list := jItems fhir_resource ("performer")
      let performer_display0 :=
        match performer_list.head? with
        | some p => optStr (jgetD p ("actor") (JValue.obj [])) ("display")
        | none => none
      let q1 := anonymize_provider_name gen s performer_display0
      let location := jgetD fhir_resource ("location") (JValue.obj [])
      let location_display0 := optStr location ("display")
      let q2 := anonymize_location gen q1.2 location_display0
      let lot_number := optStr fhir_resource ("lotNumber")
      let occurrence_date0 := parse_fhir_date (optStr fhir_resource ("occurrenceDateTime"))
      let recorded_date0 := parse_fhir_date (optStr fhir_resource ("recorded"))
      let q3 := shift_date q2.2 occurrence_date0 patient_resource_id
      let q4 := shift_date q3.2 recorded_date0 patient_resource_id
      let dbRec : ImmunizationRecord :=
        ⟨resource_id, patient_resource_id, encounter_resource_id, status, status_reason_code,
         vaccine_code, vaccine_display, primary_source, q1.1, q2.1,
         lot_number, q3.1, q4.1, dumpJ fhir_resource⟩
      (dbRec, { db with immunizations := db.immunizations ++ [dbRec] }, q4.2)

/-- Embedding of `process_practitioner` (`deid_routes.py:650`).  The source
field `prefix` is named `prefixVal` here (`prefix` is a Lean keyword). -/
def process_practitioner (gen : FakerGen) (fhir_resource : JValue) (db : Store)
    (s : DeidState) : PractitionerRecord × Store × DeidState :=
  let resource_id := optStr fhir_resource ("id")
  match db.practitioners.find? (fun p => p.resource_id == resource_id) with
  | some existing => (existing, db, s)
  | none =>
      let name_list := jItems fhir_resource ("name")
      let name_obj := name_list.headD (JValue.obj [])
      let given_names := jItems name_obj ("given")
      let given_name := given_names.head?.bind asStr?
      let family_name := optStr name_obj ("family")
      let prefix_list := jItems name_obj ("prefix")
      let prefixVal := prefix_list.head?.bind asStr?
      let gender := optStr fhir_resource ("gender")
      let birth_date_str := optStr fhir_resource ("birthDate")
      let birth_date :=
        match birth_date_str with
        | none => none
        | some bs => if bs = "" then none else parse_fhir_date (some bs)
      let identifier_list := jItems fhir_resource ("identifier")
      let npi :=
        (identifier_list.find?
          (fun i => jStrEq (jget i ("system")) ("http://hl7.org/fhir/sid/us-npi"))).bind
          (fun i => optStr i ("value"))
      let telecom_list := jItems fhir_resource ("telecom")
      let phone :=
        (telecom_list.find? (fun t => jStrEq (jget t ("system")) ("phone"))).bind
          (fun t => optStr t ("value"))
      let email :=
        (telecom_list.find? (fun t => jStrEq (jget t ("system")) ("email"))).bind
          (fun t => optStr t ("value"))
      let address_list := jItems fhir_resource ("address")
      let address_obj := address_list.headD (JValue.obj [])
      let address_line :=
        match jget address_obj ("line") with
        | some (JValue.arr (v :: _)) => asStr? v
        | _ => none
      let city := optStr address_obj ("city")
      let state := optStr address_obj ("state")
      let postal_code := optStr address_obj ("postalCode")
      let active := jget fhir_resource ("active")
      let q1 := anonymize_name gen s given_name ("given")
      let q2 := anonymize_name gen q1.2 family_name ("family")
      let q3 := shift_date q2.2 birth_date (resource_id.getD (""))
      let q4 := anonymize_phone gen q3.2 phone
      let q5 := anonymize_email gen q4.2 email
      let q6 := anonymize_address gen q5.2 address_line
      let q7 := anonymize_city gen q6.2 city
      let q8 := anonymize_postal_code gen q7.2 postal_code
      let dbRec : PractitionerRecord :=
        ⟨resource_id, q1.1, q2.1, prefixVal, gender, q3.1, npi, q4.1,
         q5.1, q6.1, q7.1, state, q8.1, active, dumpJ fhir_resource⟩
      (dbRec, { db with practitioners := db.practitioners ++ [dbRec] }, q8.2)

/-- Embedding of `process_practitioner_role` (`deid_routes.py:722`). -/
def process_practitioner_role (gen : FakerGen) (fhir_resource : JValue) (db : Store)
    (s : DeidState) : PractitionerRoleRecord × Store × DeidState :=
  let resource_id := optStr fhir_resource ("id")
  match db.practitioner_roles.find? (fun p => p.resource_id == resource_id) with
  | some existing => (existing, db, s)
  | none =>
      let pract_obj := jgetD fhir_resource ("practitioner") (JValue.obj [])
      let pract_identifier := jgetD pract_obj ("identifier") (JValue.obj [])
      let practitioner_resource_id := optStr pract_identifier ("value")
      let org_obj := jgetD fhir_resource ("organization") (JValue.obj [])
      let org_identifier := jgetD org_obj ("identifier") (JValue.obj [])
      let organization_resource_id := optStr org_identifier ("value")
      let active := jget fhir_resource ("active")
      let code_list := jItems fhir_resource ("code")
      let role_obj :=
        match code_list.head? with
        | some c => coding0 c
        | none => JValue.obj []
      let role_code := optStr role_obj ("code")
      let role_display := optStr role_obj ("display")
      let specialty_list := jItems fhir_resource ("specialty")
      let specialty_obj :=
        match specialty_list.head? with
        | some c => coding0 c
        | none => JValue.obj []
      let specialty_code := optStr specialty_obj ("code")
      let specialty_display := optStr specialty_obj ("display")
      let location_list := jItems fhir_resource ("location")
      let loc_identifier :=
        match location_list.head? with
        | some l => jgetD l ("identifier") (JValue.obj [])
        | none => JValue.obj []
      let location_resource_id := optStr loc_identifier ("value")
      let telecom_list := jItems fhir_resource ("telecom")
      let phone :=
        (telecom_list.find? (fun t => jStrEq (jget t ("system")) ("phone"))).bind
          (fun t => optStr t ("value"))
      let email :=
        (telecom_list.find? (fun t => jStrEq (jget t ("system")) ("email"))).bind
          (fun t => optStr t ("value"))
      let q1 := anonymize_phone gen s phone
      let q2 := anonymize_email gen q1.2 email
      let dbRec : PractitionerRoleRecord :=
        ⟨resource_id, practitioner_resource_id, organization_resource_id, active, role_code,
         role_display, specialty_code, specialty_display, location_resource_id, q1.1,
         q2.1, dumpJ fhir_resource⟩
      (dbRec, { db with practitioner_roles := db.practitioner_roles ++ [dbRec] }, q2.2)

/-- Embedding of `process_organization` (`deid_routes.py:789`). -/
def process_organization (gen : FakerGen) (fhir_resource : JValue) (db : Store)
    (s : DeidState) : OrganizationRecord × Store × DeidState :=
  let resource_id := optStr fhir_resource ("id")
  match db.organizations.find? (fun p => p.resource_id == resource_id) with
  | some existing => (existing, db, s)
  | none =>
      let name0 := optStr fhir_resource ("name")
      let q0 := anonymize_location gen s name0
      let active := jget fhir_resource ("active")
      let type_list := jItems fhir_resource ("type")
      let type_obj :=
        match type_list.head? with
        | some t => coding0 t
        | none => JValue.obj []
      let type_code := optStr type_obj ("code")
      let type_display := optStr type_obj ("display")
      let identifier_list := jItems fhir_resource ("identifier")
      let npi :=
        (identifier_list.find?
          (fun i => jStrEq (jget i ("system")) ("http://hl7.org/fhir/sid/us-npi"))).bind
          (fun i => optStr i ("value"))
      let telecom_list := jItems fhir_resource ("telecom")
      let phone :=
        (telecom_list.find? (fun t => jStrEq (jget t ("system")) ("phone"))).bind
          (fun t => optStr t ("value"))
      let email :=
        (telecom_list.find? (fun t => jStrEq (jget t ("system")) ("email"))).bind
          (fun t => optStr t ("value"))
      let address_list := jItems fhir_resource ("address")
      let address_obj := address_list.headD (JValue.obj [])
      let address_line :=
        match jget address_obj ("line") with
        | some (JValue.arr (v :: _)) => asStr? v
        | _ => none
      let city := optStr address_obj ("city")
      let state := optStr address_obj ("state")
      let postal_code := optStr address_obj ("postalCode")
      let q1 := anonymize_phone gen q0.2 phone
      let q2 := anonymize_email gen q1.2 email
      let q3 := anonymize_address gen q2.2 address_line
      let q4 := anonymize_city gen q3.2 city
      let q5 := anonymize_postal_code gen q4.2 postal_code
      let dbRec : OrganizationRecord :=
        ⟨resource_id, q0.1, active, type_code, type_display, npi, q1.1, q2.1,
         q3.1, q4.1, state, q5.1, dumpJ fhir_resource⟩
      (dbRec, { db with organizations := db.organizations ++ [dbRec] }, q5.2)

/- ===================== ingestion endpoint ===================== -/

/-- The result model returned by the ingestion endpoint
(`app/models/schemas.py: IngestionResult`). -/
structure IngestionResult where
  status : String
  message : String
  files_processed : List String
  patients_created : Nat
  encounters_created : Nat
  conditions_created : Nat
  observations_created : Nat
  medication_requests_created : Nat
  procedures_created : Nat
  diagnostic_reports_created : Nat
  document_references_created : Nat
  allergy_intolerances_created : Nat
  immunizations_created : Nat
  practitioners_created : Nat
  practitioner_roles_created : Nat
  organizations_created : Nat
deriving Repr

/-- The batches fetched by `fhir_client.get_critical_files()`: one list of
raw resources per record kind, with the dict insertion order fixed by
`fhir_client.py`. -/
structure FhirData where
  Patient : List JValue
  Encounter : List JValue
  Condition : List JValue
  Observation : List JValue
  MedicationRequest : List JValue
  Procedure : List JValue
  DiagnosticReport : List JValue
  DocumentReference : List JValue
  AllergyIntolerance : List JValue
  Immunization : List JValue
  Practitioner : List JValue
  PractitionerRole : List JValue
  Organization : List JValue
deriving Repr

/-- One `for resource in batch: process_x(resource, db); count += 1` loop
of `ingest_and_deid`. -/
def processLoop {α : Type} (f : JValue → Store → DeidState → α × Store × DeidState) :
    List JValue → Store → DeidState → Nat → Nat × Store × DeidState
  | [], db, s, n => (n, db, s)
  | r :: rest, db, s, n =>
      let p := f r db s
      processLoop f rest p.2.1 p.2.2 (n + 1)

/-- The comprehension `[k for k, v in fhir_data.items() if v]` in dict
insertion order. -/
def filesProcessed (d : FhirData) : List String :=
  (if !d.Patient.isEmpty then [("Patient")] else []) ++
  (if !d.Encounter.isEmpty then [("Encounter")] else []) ++
  (if !d.Condition.isEmpty then [("Condition")] else []) ++
  (if !d.Observation.isEmpty then [("Observation")] else []) ++
  (if !d.MedicationRequest.isEmpty then [("MedicationRequest")] else []) ++
  (if !d.Procedure.isEmpty then [("Procedure")] else []) ++
  (if !d.DiagnosticReport.isEmpty then [("DiagnosticReport")] else []) ++
  (if !d.DocumentReference.isEmpty then [("DocumentReference")] else []) ++
  (if !d.AllergyIntolerance.isEmpty then [("AllergyIntolerance")] else []) ++
  (if !d.Immunization.isEmpty then [("Immunization")] else []) ++
  (if !d.Practitioner.isEmpty then [("Practitioner")] else []) ++
  (if !d.PractitionerRole.isEmpty then [("PractitionerRole")] else []) ++
  (if !d.Organization.isEmpty then [("Organization")] else [])

/-- Embedding of the `ingest_and_deid` endpoint (`deid_routes.py:854`):
optionally clear all tables, then run the thirteen per-kind loops,
each incrementing its counter once per raw resource in the batch. -/
def ingest_and_deid (gen : FakerGen) (clear_existing : Bool) (fhir_data : FhirData)
    (db : Store) (s : DeidState) : IngestionResult × Store × DeidState :=
  let db0 := if clear_existing then emptyStore else db
  let p1 := processLoop (process_patient gen) fhir_data.Patient db0 s 0
  let p2 := processLoop (process_encounter gen) fhir_data.Encounter p1.2.1 p1.2.2 0
  let p3 := processLoop (process_condition gen) fhir_data.Condition p2.2.1 p2.2.2 0
  let p4 := processLoop (process_observation gen) fhir_data.Observation p3.2.1 p3.2.2 0
  let p5 := processLoop (process_medication_request gen) fhir_data.MedicationRequest p4.2.1 p4.2.2 0
  let p6 := processLoop (process_procedure gen) fhir_data.Procedure p5.2.1 p5.2.2 0
  let p7 := processLoop (process_diagnostic_report gen) fhir_data.DiagnosticReport p6.2.1 p6.2.2 0
  let p8 := processLoop (process_document_reference gen) fhir_data.DocumentReference p7.2.1 p7.2.2 0
  let p9 := processLoop (process_allergy_intolerance gen) fhir_data.AllergyIntolerance p8.2.1 p8.2.2 0
  let p10 := processLoop (process_immunization gen) fhir_data.Immunization p9.2.1 p9.2.2 0
  let p11 := processLoop (process_practitioner gen) fhir_data.Practitioner p10.2.1 p10.2.2 0
  let p12 := processLoop (process_practitioner_role gen) fhir_data.PractitionerRole p11.2.1 p11.2.2 0
  let p13 := processLoop (process_organization gen) fhir_data.Organization p12.2.1 p12.2.2 0
  (⟨("success"), ("FHIR data ingested and de-identified successfully"), filesProcessed fhir_data,
    p1.1, p2.1, p3.1, p4.1, p5.1, p6.1, p7.1, p8.1, p9.1, p10.1, p11.1, p12.1, p13.1⟩,
   p13.2.1, p13.2.2)

/- ===================== clear-database endpoint ===================== -/

/-- The thirteen record kinds, named as the `deleted_counts` keys of
`clear_database`. -/
inductive Kind where
  | document_references
  | allergy_intolerances
  | immunizations
  | diagnostic_reports
  | procedures
  | medication_requests
  | observations
  | conditions
  | practitioner_roles
  | practitioners
  | organizations
  | encounters
  | patients
deriving DecidableEq, Repr

def kindName : Kind → String
  | Kind.document_references => ("document_references")
  | Kind.allergy_intolerances => ("allergy_intolerances")
  | Kind.immunizations => ("immunizations")
  | Kind.diagnostic_reports => ("diagnostic_reports")
  | Kind.procedures => ("procedures")
  | Kind.medication_requests => ("medication_requests")
  | Kind.observations => ("observations")
  | Kind.conditions => ("conditions")
  | Kind.practitioner_roles => ("practitioner_roles")
  | Kind.practitioners => ("practitioners")
  | Kind.organizations => ("organizations")
  | Kind.encounters => ("encounters")
  | Kind.patients => ("patients")

/-- The deletion order written out in `clear_database`
(child tables first, the patient table last). -/
def deleteOrder : List Kind :=
  [Kind.document_references, Kind.allergy_intolerances, Kind.immunizations,
   Kind.diagnostic_reports, Kind.procedures, Kind.medication_requests, Kind.observations,
   Kind.conditions, Kind.practitioner_roles, Kind.practitioners, Kind.organizations,
   Kind.encounters, Kind.patients]

/-- Number of stored records of one kind. -/
def storeCount (db : Store) : Kind → Nat
  | Kind.document_references => db.document_references.length
  | Kind.allergy_intolerances => db.allergy_intolerances.length
  | Kind.immunizations => db.immunizations.length
  | Kind.diagnostic_reports => db.diagnostic_reports.length
  | Kind.procedures => db.procedures.length
  | Kind.medication_requests => db.medication_requests.length
  | Kind.observations => db.observations.length
  | Kind.conditions => db.conditions.length
  | Kind.practitioner_roles => db.practitioner_roles.length
  | Kind.practitioners => db.practitioners.length
  | Kind.organizations => db.organizations.length
  | Kind.encounters => db.encounters.length
  | Kind.patients => db.patients.length

/-- `db.query(Model).delete()`: removes every row of the kind and returns
the row count. -/
def deleteKind (db : Store) : Kind → Nat × Store
  | Kind.document_references => (db.document_references.length, { db with document_references := [] })
  | Kind.allergy_intolerances => (db.allergy_intolerances.length, { db with allergy_intolerances := [] })
  | Kind.immunizations => (db.immunizations.length, { db with immunizations := [] })
  | Kind.diagnostic_reports => (db.diagnostic_reports.length, { db with diagnostic_reports := [] })
  | Kind.procedures => (db.procedures.length, { db with procedures := [] })
  | Kind.medication_requests => (db.medication_requests.length, { db with medication_requests := [] })
  | Kind.observations => (db.observations.length, { db with observations := [] })
  | Kind.conditions => (db.conditions.length, { db with conditions := [] })
  | Kind.practitioner_roles => (db.practitioner_roles.length, { db with practitioner_roles := [] })
  | Kind.practitioners => (db.practitioners.length, { db with practitioners := [] })
  | Kind.organizations => (db.organizations.length, { db with organizations := [] })
  | Kind.encounters => (db.encounters.length, { db with encounters := [] })
  | Kind.patients => (db.patients.length, { db with patients := [] })

/-- The response of the clear-database endpoint: either the success body
or the HTTP 500 error raised from the except-branch. -/
inductive ClearResult where
  | ok (statusStr : String) (message : String) (deleted_counts : List (String × Nat))
  | httpError (detail : String)
deriving Repr

/-- The sequence of `db.query(...).delete()` calls executed inside the
session's transaction.  `failures k = some e` models the delete on kind
`k` raising exception `e`. -/
def runDeletes (failures : Kind → Option String) :
    List Kind → Store → List (String × Nat) → Except String (List (String × Nat) × Store)
  | [], db, acc => Except.ok (acc, db)
  | k :: rest, db, acc =>
      match failures k with
      | some e => Except.error e
      | none =>
          let p := deleteKind db k
          runDeletes failures rest p.2 (acc ++ [(kindName k, p.1)])

/-- Embedding of the `clear_database` endpoint (`deid_routes.py:1089`):
run the thirteen deletes inside the transaction; on success, commit
(the second component becomes the deleted store) and report per-kind
counts; on any exception, roll back (the committed store is returned
unchanged) and report an HTTP 500 error. -/
def clear_database (failures : Kind → Option String) (db : Store) : ClearResult × Store :=
  match runDeletes failures deleteOrder db [] with
  | Except.ok (counts, pending) =>
      let total := (counts.map (fun kv => kv.2)).sum
      (ClearResult.ok ("success")
        (("Database cleared successfully. ") ++ toString total ++ (" total records deleted."))
        counts, pending)
  | Except.error e => (ClearResult.httpError (("Error clearing database: ") ++ e), db)

/- ===================== helper lemmas ===================== -/

theorem lookup_append_self {α : Type} (l : List (String × α)) (k : String) (v : α)
    (h : l.lookup k = none) : (l ++ [(k, v)]).lookup k = some v := by
  induction l with
  | nil => simp [List.lookup]
  | cons p t ih =>
      obtain ⟨k', v'⟩ := p
      cases hk : (k == k') with
      | true => simp [List.lookup, hk] at h
      | false =>
          simp only [List.lookup, hk] at h
          simpa [List.cons_append, List.lookup, hk] using ih h

theorem getShift_stable (s : DeidState) (pid : String) :
    getDeterministicShift ((getDeterministicShift s pid).2) pid
      = ((getDeterministicShift s pid).1, (getDeterministicShift s pid).2) := by
  unfold getDeterministicShift
  cases h : s.dateShiftCache.lookup pid with
  | some v => simp [h]
  | none => simp [h, lookup_append_self _ _ _ h]

theorem anonName_stable (gen : FakerGen) (s : DeidState) (orig ty : String) (h : orig ≠ "") :
    (anonymize_name gen ((anonymize_name gen s (some orig) ty).2) (some orig) ty).1
      = (anonymize_name gen s (some orig) ty).1 := by
  unfold anonymize_name
  cases hl : s.nameCache.lookup (ty ++ (":") ++ orig) with
  | some v => simp [h, hl]
  | none => simp [h, hl, lookup_append_self _ _ _ hl]

theorem anonAddress_stable (gen : FakerGen) (s : DeidState) (orig : String) (h : orig ≠ "") :
    (anonymize_address gen ((anonymize_address gen s (some orig)).2) (some orig)).1
      = (anonymize_address gen s (some orig)).1 := by
  unfold anonymize_address
  cases hl : s.addressCache.lookup orig with
  | some v => simp [h, hl]
  | none => simp [h, hl, lookup_append_self _ _ _ hl]

theorem anonPhone_stable (gen : FakerGen) (s : DeidState) (orig : String) (h : orig ≠ "") :
    (anonymize_phone gen ((anonymize_phone gen s (some orig)).2) (some orig)).1
      = (anonymize_phone gen s (some orig)).1 := by
  unfold anonymize_phone
  cases hl : s.phoneCache.lookup orig with
  | some v => simp [h, hl]
  | none => simp [h, hl, lookup_append_self _ _ _ hl]

theorem anonEmail_stable (gen : FakerGen) (s : DeidState) (orig : String) (h : orig ≠ "") :
    (anonymize_email gen ((anonymize_email gen s (some orig)).2) (some orig)).1
      = (anonymize_email gen s (some orig)).1 := by
  unfold anonymize_email
  cases hl : s.emailCache.lookup orig with
  | some v => simp [h, hl]
  | none => simp [h, hl, lookup_append_self _ _ _ hl]

/- ===================== C4 ===================== -/

/-- C4: for every patient key, the date-shift offset computed by a fresh
engine instance equals `(sha256(key) mod 731) - 365`, lies in
`[-365, 365]`, and is stable: a repeated call through the cache (from any
service state) returns the value of the previous call — so the offset is
a pure function of the key, across calls and across engine instances
(every fresh instance evaluates the same closed formula). -/
theorem date_shift_offset_formula_bound_pure (pid : String) :
    (getDeterministicShift initDeidState pid).1 = ((sha256Nat pid % 731 : Nat) : Int) - 365 ∧
    -365 ≤ (getDeterministicShift initDeidState pid).1 ∧
    (getDeterministicShift initDeidState pid).1 ≤ 365 ∧
    ∀ s : DeidState,
      (getDeterministicShift ((getDeterministicShift s pid).2) pid).1
        = (getDeterministicShift s pid).1 := by
  have hform : (getDeterministicShift initDeidState pid).1
      = ((sha256Nat pid % 731 : Nat) : Int) - 365 := rfl
  have hmod : sha256Nat pid % 731 < 731 := Nat.mod_lt _ (by norm_num)
  refine ⟨hform, ?_, ?_, ?_⟩
  · rw [hform]; omega
  · rw [hform]; omega
  · intro s
    exact congrArg Prod.fst (getShift_stable s pid)

/- ===================== C5 ===================== -/

/-- C5: for one patient key, shifting two instants in sequence preserves
their interval exactly; shifting the same instant again returns the
identical shifted instant; the shift preserves time-of-day (and the
timezone field); absent input returns absent output and leaves the state
unchanged. -/
theorem shift_date_interval_stability_timeofday (s : DeidState) (k : String)
    (t1 t2 : PyDateTime) :
    (∃ v1 v2 : PyDateTime,
      (shift_date s (some t1) k).1 = some v1 ∧
      (shift_date (shift_date s (some t1) k).2 (some t2) k).1 = some v2 ∧
      v1.epochSec - v2.epochSec = t1.epochSec - t2.epochSec ∧
      v1.epochSec % 86400 = t1.epochSec % 86400 ∧
      v1.tzMin = t1.tzMin) ∧
    (shift_date (shift_date s (some t1) k).2 (some t1) k).1 = (shift_date s (some t1) k).1 ∧
    shift_date s none k = (none, s) := by
  have hst := getShift_stable s k
  refine ⟨⟨{ t1 with epochSec := t1.epochSec + 86400 * (getDeterministicShift s k).1 },
          { t2 with epochSec := t2.epochSec + 86400 * (getDeterministicShift s k).1 },
          rfl, ?_, by ring,
          Int.add_mul_emod_self_left t1.epochSec 86400 ((getDeterministicShift s k).1), rfl⟩,
          ?_, rfl⟩
  · simp only [shift_date, hst]
  · simp only [shift_date, hst]

/- ===================== concrete test generator ===================== -/

/-- A concrete generator instantiation used for closed evaluations: every
stream yields a distinct tagged value per draw. -/
def testGen : FakerGen :=
  ⟨fun n => ("FN") ++ toString n, fun n => ("LN") ++ toString n, fun n => ("Name") ++ toString n,
   fun n => ("City") ++ toString n, fun n => ("Addr") ++ toString n, fun n => ("Zip") ++ toString n,
   fun n => ("Phone") ++ toString n, fun n => ("Email") ++ toString n⟩

/- ===================== C2 ===================== -/

/-- C2 counterexample: two calls of `anonymize_provider_name` on the same
non-empty provider name within the same engine instance do not return the
same synthetic value — the second call draws the next generator value
because, unlike the name/address/phone/email operations, no cache is
consulted. -/
theorem anonymize_provider_name_not_consistent :
    (anonymize_provider_name testGen initDeidState (some ("Dr. John Smith"))).1 ≠
      (anonymize_provider_name testGen
        ((anonymize_provider_name testGen initDeidState (some ("Dr. John Smith"))).2)
        (some ("Dr. John Smith"))).1 := by
  decide

/-- C2 amended: for every non-empty provider name, `anonymize_provider_name`
returns whatever the underlying generator yields at the current draw
position (independent of the original value and of every cache) and
advances the generator — so repeated calls return successive draws, with
no consistency guarantee for the provider-name category; the cached
operations for the given-name, family-name, address, phone and email
categories, by contrast, each return the identical value on a repeated
call with the same original. -/
theorem anonymize_provider_name_fresh_draw (gen : FakerGen) (s : DeidState) (orig : String)
    (h : orig ≠ "") :
    (anonymize_provider_name gen s (some orig)).1 = some (gen.fullName s.rng) ∧
    (anonymize_provider_name gen s (some orig)).2.rng = s.rng + 1 ∧
    (anonymize_name gen ((anonymize_name gen s (some orig) ("given")).2) (some orig)
        ("given")).1
      = (anonymize_name gen s (some orig) ("given")).1 ∧
    (anonymize_name gen ((anonymize_name gen s (some orig) ("family")).2) (some orig)
        ("family")).1
      = (anonymize_name gen s (some orig) ("family")).1 ∧
    (anonymize_address gen ((anonymize_address gen s (some orig)).2) (some orig)).1
      = (anonymize_address gen s (some orig)).1 ∧
    (anonymize_phone gen ((anonymize_phone gen s (some orig)).2) (some orig)).1
      = (anonymize_phone gen s (some orig)).1 ∧
    (anonymize_email gen ((anonymize_email gen s (some orig)).2) (some orig)).1
      = (anonymize_email gen s (some orig)).1 := by
  refine ⟨?_, ?_, anonName_stable gen s orig ("given") h,
          anonName_stable gen s orig ("family") h, anonAddress_stable gen s orig h,
          anonPhone_stable gen s orig h, anonEmail_stable gen s orig h⟩
  · simp [anonymize_provider_name, h]
  · simp [anonymize_provider_name, h]

theorem anonymize_provider_name_fresh_draw_witness :
    (("Dr. A") : String) ≠ ("") ∧
    ((anonymize_provider_name testGen initDeidState (some ("Dr. A"))).1
        = some (testGen.fullName initDeidState.rng) ∧
     (anonymize_provider_name testGen initDeidState (some ("Dr. A"))).2.rng
        = initDeidState.rng + 1 ∧
     (anonymize_name testGen ((anonymize_name testGen initDeidState (some ("Dr. A")) ("given")).2)
        (some ("Dr. A")) ("given")).1
        = (anonymize_name testGen initDeidState (some ("Dr. A")) ("given")).1 ∧
     (anonymize_name testGen ((anonymize_name testGen initDeidState (some ("Dr. A")) ("family")).2)
        (some ("Dr. A")) ("family")).1
        = (anonymize_name testGen initDeidState (some ("Dr. A")) ("family")).1 ∧
     (anonymize_address testGen ((anonymize_address testGen initDeidState (some ("Dr. A"))).2)
        (some ("Dr. A"))).1
        = (anonymize_address testGen initDeidState (some ("Dr. A"))).1 ∧
     (anonymize_phone testGen ((anonymize_phone testGen initDeidState (some ("Dr. A"))).2)
        (some ("Dr. A"))).1
        = (anonymize_phone testGen initDeidState (some ("Dr. A"))).1 ∧
     (anonymize_email testGen ((anonymize_email testGen initDeidState (some ("Dr. A"))).2)
        (some ("Dr. A"))).1
        = (anonymize_email testGen initDeidState (some ("Dr. A"))).1) :=
  ⟨by decide, anonymize_provider_name_fresh_draw testGen initDeidState ("Dr. A") (by decide)⟩

/- ===================== C8 ===================== -/

/-- C8 counterexample: the fixed sentinel contains the non-empty original
text `"Clinical Note"` as a substring, so the redaction output is not
free of the original text in the substring sense. -/
theorem remove_free_text_pii_sentinel_contains_original :
    remove_free_text_pii (some ("Clinical Note")) = some ("[REDACTED - Clinical Note]") ∧
    strContainsB ("Clinical Note") ("[REDACTED - Clinical Note]") = true := by
  decide

/-- C8 amended: every non-empty input returns the fixed sentinel
`"[REDACTED - Clinical Note]"`, independent of the input, and empty or
absent input returns absent.  (The output never preserves the original
text; only the fixed words of the sentinel itself can occur in it.) -/
theorem remove_free_text_pii_total_sentinel (t : String) (h : t ≠ "") :
    remove_free_text_pii (some t) = some ("[REDACTED - Clinical Note]") ∧
    remove_free_text_pii (some ("")) = none ∧
    remove_free_text_pii none = none := by
  refine ⟨by simp [remove_free_text_pii, h], rfl, rfl⟩

theorem remove_free_text_pii_total_sentinel_witness :
    (("Patient shows signs of anemia") : String) ≠ ("") ∧
    (remove_free_text_pii (some ("Patient shows signs of anemia"))
        = some ("[REDACTED - Clinical Note]") ∧
     remove_free_text_pii (some ("")) = none ∧
     remove_free_text_pii none = none) :=
  ⟨by decide, remove_free_text_pii_total_sentinel ("Patient shows signs of anemia") (by decide)⟩

/- ===================== C9 ===================== -/

/-- C9: the date parser first attempts a full ISO date-time parse on the
input with the trailing (indeed, every) `Z` normalized to `+00:00`, then
falls back to a `%Y-%m-%d` date-only parse; empty or absent input yields
absent, and any unparseable input yields absent rather than an error (the
embedding is a total function into `Option`).  The closed conjuncts
exhibit each branch, including an input accepted only by the second
stage. -/
theorem parse_fhir_date_two_stage_fallback (str : String) :
    parse_fhir_date none = none ∧
    parse_fhir_date (some ("")) = none ∧
    (parse_fhir_date (some str) =
      if str = "" then none
      else
        match parseIsoDateTime (zNormalize str) with
        | some dt => some dt
        | none => parseDateOnly str) ∧
    parse_fhir_date (some ("2023-01-10T08:00:00Z")) = some ⟨1673337600, some 0⟩ ∧
    parseIsoDateTime ("1990-1-15") = none ∧
    parse_fhir_date (some ("1990-1-15")) = some ⟨632361600, none⟩ ∧
    parse_fhir_date (some ("not-a-date")) = none := by
  refine ⟨rfl, rfl, rfl, by decide, by decide, by decide, by decide⟩

/- ===================== C7 ===================== -/

theorem splitOnSlash_ne_nil (l : List Char) : splitOnSlash l ≠ [] := by
  induction l with
  | nil => simp [splitOnSlash]
  | cons c t ih =>
      by_cases hc : c = '/'
      · simp [splitOnSlash, hc]
      · simp only [splitOnSlash, hc, if_false]
        cases h : splitOnSlash t with
        | nil => simp
        | cons g gs => simp

theorem splitOnSlash_append (l₁ l₂ : List Char) :
    splitOnSlash (l₁ ++ '/' :: l₂) = splitOnSlash l₁ ++ splitOnSlash l₂ := by
  induction l₁ with
  | nil => simp [splitOnSlash]
  | cons c t ih =>
      by_cases hc : c = '/'
      · subst hc
        simp [splitOnSlash, ih]
      · obtain ⟨g, gs, hg⟩ : ∃ g gs, splitOnSlash t = g :: gs := by
          cases h : splitOnSlash t with
          | nil => exact absurd h (splitOnSlash_ne_nil t)
          | cons g gs => exact ⟨g, gs, rfl⟩
        simp [splitOnSlash, hc, ih, hg]

theorem splitOnSlash_no_slash (l : List Char) (h : l.contains '/' = false) :
    splitOnSlash l = [l] := by
  induction l with
  | nil => rfl
  | cons c t ih =>
      rw [List.contains_cons, Bool.or_eq_false_iff] at h
      have hcc : ¬ (c = '/') := by
        intro hEq
        subst hEq
        simp at h
      simp [splitOnSlash, hcc, ih h.2]

theorem contains_slash_append (l₁ l₂ : List Char) :
    (l₁ ++ '/' :: l₂).contains '/' = true := by
  induction l₁ with
  | nil => simp [List.contains_cons]
  | cons c t ih => simp [List.contains_cons, ih]

/-- C7 counterexample: the patient-reference rule at `deid_routes.py:113`
does not default to absent when the `Kind/` prefix is missing — the whole
unparsed reference string is kept: an encounter whose subject reference
is the prefix-less string `"abc"` is stored with
`patient_resource_id = "abc"`. -/
theorem patient_reference_without_prefix_not_absent :
    resolveRefSelf ("abc") = ("abc") ∧
    ((process_encounter testGen
        (JValue.obj [(("id"), JValue.str ("enc-1")),
                     (("subject"), JValue.obj [(("reference"), JValue.str ("abc"))])])
        emptyStore initDeidState).1).patient_resource_id = ("abc") := by
  decide

/-- C7 amended: a reference of shape `Kind/id` resolves to the bare `id`
(the segment after the last `/`) under both resolution rules; when no
`/` is present, the optional-field rule (encounter references) resolves
to absent, while the patient-reference rule falls back to the whole
reference string itself (in particular the empty string stays the empty
string, not an SQL NULL). -/
theorem reference_resolution_rules (kind id s : String)
    (hid : id.data.contains '/' = false) (hs : s.data.contains '/' = false) :
    resolveRefSelf (kind ++ ("/") ++ id) = id ∧
    resolveRefOpt (kind ++ ("/") ++ id) = some id ∧
    resolveRefSelf s = s ∧
    resolveRefOpt s = none := by
  have hdata : (kind ++ ("/") ++ id).data = kind.data ++ '/' :: id.data := by
    simp [String.data_append]
  have hslash : hasSlash (kind ++ ("/") ++ id) = true := by
    unfold hasSlash
    rw [hdata]
    exact contains_slash_append _ _
  have hlast : lastSegment (kind ++ ("/") ++ id) = id := by
    unfold lastSegment
    rw [hdata, splitOnSlash_append, splitOnSlash_no_slash id.data hid,
        List.getLastD_concat]
  have hno : hasSlash s = false := hs
  refine ⟨?_, ?_, ?_, ?_⟩
  · simp [resolveRefSelf, hslash, hlast]
  · simp [resolveRefOpt, hslash, hlast]
  · simp [resolveRefSelf, hno]
  · simp [resolveRefOpt, hno]

theorem reference_resolution_rules_witness :
    (("p1") : String).data.contains '/' = false ∧
    (("abc") : String).data.contains '/' = false ∧
    (resolveRefSelf (("Patient") ++ ("/") ++ ("p1")) = ("p1") ∧
     resolveRefOpt (("Patient") ++ ("/") ++ ("p1")) = some ("p1") ∧
     resolveRefSelf ("abc") = ("abc") ∧
     resolveRefOpt ("abc") = none) :=
  ⟨by decide, by decide,
   reference_resolution_rules ("Patient") ("p1") ("abc") (by decide) (by decide)⟩

/- ===================== C3 ===================== -/

theorem find?_append_right {α : Type} (l₁ l₂ : List α) (p : α → Bool)
    (h : l₁.find? p = none) : (l₁ ++ l₂).find? p = l₂.find? p := by
  induction l₁ with
  | nil => simp
  | cons a t ih =>
      cases hp : p a with
      | true => simp [List.find?_cons, hp] at h
      | false =>
          simp only [List.find?_cons, hp] at h
          simpa [List.find?_cons, hp] using ih h

/-- C3: for each of the thirteen record kinds, processing a raw record
whose `resource_id` already has a stored record is a no-op returning the
existing record with the store and service state unchanged (first write
wins); and processing a record whose `resource_id` is new leaves exactly
one record with that `resource_id` in the store, after which processing
the same raw record again returns that record and changes nothing. -/
theorem ingest_first_write_wins_idempotent (gen : FakerGen) (r : JValue) (db : Store)
    (s : DeidState) :
    ((∀ p, db.patients.find? (fun q => q.resource_id == optStr r ("id")) = some p →
        process_patient gen r db s = (p, db, s)) ∧
     (db.patients.find? (fun q => q.resource_id == optStr r ("id")) = none →
        ((process_patient gen r db s).2.1.patients.countP
            (fun q => q.resource_id == optStr r ("id")) = 1 ∧
         process_patient gen r (process_patient gen r db s).2.1 (process_patient gen r db s).2.2
           = ((process_patient gen r db s).1, (process_patient gen r db s).2.1, (process_patient gen r db s).2.2)))) ∧
    ((∀ p, db.encounters.find? (fun q => q.resource_id == optStr r ("id")) = some p →
        process_encounter gen r db s = (p, db, s)) ∧
     (db.encounters.find? (fun q => q.resource_id == optStr r ("id")) = none →
        ((process_encounter gen r db s).2.1.encounters.countP
            (fun q => q.resource_id == optStr r ("id")) = 1 ∧
         process_encounter gen r (process_encounter gen r db s).2.1 (process_encounter gen r db s).2.2
           = ((process_encounter gen r db s).1, (process_encounter gen r db s).2.1, (process_encounter gen r db s).2.2)))) ∧
    ((∀ p, db.conditions.find? (fun q => q.resource_id == optStr r ("id")) = some p →
        process_condition gen r db s = (p, db, s)) ∧
     (db.conditions.find? (fun q => q.resource_id == optStr r ("id")) = none →
        ((process_condition gen r db s).2.1.conditions.countP
            (fun q => q.resource_id == optStr r ("id")) = 1 ∧
         process_condition gen r (process_condition gen r db s).2.1 (process_condition gen r db s).2.2
           = ((process_condition gen r db s).1, (process_condition gen r db s).2.1, (process_condition gen r db s).2.2)))) ∧
    ((∀ p, db.observations.find? (fun q => q.resource_id == optStr r ("id")) = some p →
        process_observation gen r db s = (p, db, s)) ∧
     (db.observations.find? (fun q => q.resource_id == optStr r ("id")) = none →
        ((process_observation gen r db s).2.1.observations.countP
            (fun q => q.resource_id == optStr r ("id")) = 1 ∧
         process_observation gen r (process_observation gen r db s).2.1 (process_observation gen r db s).2.2
           = ((process_observation gen r db s).1, (process_observation gen r db s).2.1, (process_observation gen r db s).2.2)))) ∧
    ((∀ p, db.medication_requests.find? (fun q => q.resource_id == optStr r ("id")) = some p →
        process_medication_request gen r db s = (p, db, s)) ∧
     (db.medication_requests.find? (fun q => q.resource_id == optStr r ("id")) = none →
        ((process_medication_request gen r db s).2.1.medication_requests.countP
            (fun q => q.resource_id == optStr r ("id")) = 1 ∧
         process_medication_request gen r (process_medication_request gen r db s).2.1 (process_medication_request gen r db s).2.2
           = ((process_medication_request gen r db s).1, (process_medication_request gen r db s).2.1, (process_medication_request gen r db s).2.2)))) ∧
    ((∀ p, db.procedures.find? (fun q => q.resource_id == optStr r ("id")) = some p →
        process_procedure gen r db s = (p, db, s)) ∧
     (db.procedures.find? (fun q => q.resource_id == optStr r ("id")) = none →
        ((process_procedure gen r db s).2.1.procedures.countP
            (fun q => q.resource_id == optStr r ("id")) = 1 ∧
         process_procedure gen r (process_procedure gen r db s).2.1 (process_procedure gen r db s).2.2
           = ((process_procedure gen r db s).1, (process_procedure gen r db s).2.1, (process_procedure gen r db s).2.2)))) ∧
    ((∀ p, db.diagnostic_reports.find? (fun q => q.resource_id == optStr r ("id")) = some p →
        process_diagnostic_report gen r db s = (p, db, s)) ∧
     (db.diagnostic_reports.find? (fun q => q.resource_id == optStr r ("id")) = none →
        ((process_diagnostic_report gen r db s).2.1.diagnostic_reports.countP
            (fun q => q.resource_id == optStr r ("id")) = 1 ∧
         process_diagnostic_report gen r (process_diagnostic_report gen r db s).2.1 (process_diagnostic_report gen r db s).2.2
           = ((process_diagnostic_report gen r db s).1, (process_diagnostic_report gen r db s).2.1, (process_diagnostic_report gen r db s).2.2)))) ∧
    ((∀ p, db.document_references.find? (fun q => q.resource_id == optStr r ("id")) = some p →
        process_document_reference gen r db s = (p, db, s)) ∧
     (db.document_references.find? (fun q => q.resource_id == optStr r ("id")) = none →
        ((process_document_reference gen r db s).2.1.document_references.countP
            (fun q => q.resource_id == optStr r ("id")) = 1 ∧
         process_document_reference gen r (process_document_reference gen r db s).2.1 (process_document_reference gen r db s).2.2
           = ((process_document_reference gen r db s).1, (process_document_reference gen r db s).2.1, (process_document_reference gen r db s).2.2)))) ∧
    ((∀ p, db.allergy_intolerances.find? (fun q => q.resource_id == optStr r ("id")) = some p →
        process_allergy_intolerance gen r db s = (p, db, s)) ∧
     (db.allergy_intolerances.find? (fun q => q.resource_id == optStr r ("id")) = none →
        ((process_allergy_intolerance gen r db s).2.1.allergy_intolerances.countP
            (fun q => q.resource_id == optStr r ("id")) = 1 ∧
         process_allergy_intolerance gen r (process_allergy_intolerance gen r db s).2.1 (process_allergy_intolerance gen r db s).2.2
           = ((process_allergy_intolerance gen r db s).1, (process_allergy_intolerance gen r db s).2.1, (process_allergy_intolerance gen r db s).2.2)))) ∧
    ((∀ p, db.immunizations.find? (fun q => q.resource_id == optStr r ("id")) = some p →
        process_immunization gen r db s = (p, db, s)) ∧
     (db.immunizations.find? (fun q => q.resource_id == optStr r ("id")) = none →
        ((process_immunization gen r db s).2.1.immunizations.countP
            (fun q => q.resource_id == optStr r ("id")) = 1 ∧
         process_immunization gen r (process_immunization gen r db s).2.1 (process_immunization gen r db s).2.2
           = ((process_immunization gen r db s).1, (process_immunization gen r db s).2.1, (process_immunization gen r db s).2.2)))) ∧
    ((∀ p, db.practitioners.find? (fun q => q.resource_id == optStr r ("id")) = some p →
        process_practitioner gen r db s = (p, db, s)) ∧
     (db.practitioners.find? (fun q => q.resource_id == optStr r ("id")) = none →
        ((process_practitioner gen r db s).2.1.practitioners.countP
            (fun q => q.resource_id == optStr r ("id")) = 1 ∧
         process_practitioner gen r (process_practitioner gen r db s).2.1 (process_practitioner gen r db s).2.2
           = ((process_practitioner gen r db s).1, (process_practitioner gen r db s).2.1, (process_practitioner gen r db s).2.2)))) ∧
    ((∀ p, db.practitioner_roles.find? (fun q => q.resource_id == optStr r ("id")) = some p →
        process_practitioner_role gen r db s = (p, db, s)) ∧
     (db.practitioner_roles.find? (fun q => q.resource_id == optStr r ("id")) = none →
        ((process_practitioner_role gen r db s).2.1.practitioner_roles.countP
            (fun q => q.resource_id == optStr r ("id")) = 1 ∧
         process_practitioner_role gen r (process_practitioner_role gen r db s).2.1 (process_practitioner_role gen r db s).2.2
           = ((process_practitioner_role gen r db s).1, (process_practitioner_role gen r db s).2.1, (process_practitioner_role gen r db s).2.2)))) ∧
    ((∀ p, db.organizations.find? (fun q => q.resource_id == optStr r ("id")) = some p →
        process_organization gen r db s = (p, db, s)) ∧
     (db.organizations.find? (fun q => q.resource_id == optStr r ("id")) = none →
        ((process_organization gen r db s).2.1.organizations.countP
            (fun q => q.resource_id == optStr r ("id")) = 1 ∧
         process_organization gen r (process_organization gen r db s).2.1 (process_organization gen r db s).2.2
           = ((process_organization gen r db s).1, (process_organization gen r db s).2.1, (process_organization gen r db s).2.2)))) := by
  refine ⟨?_, ?_, ?_, ?_, ?_, ?_, ?_, ?_, ?_, ?_, ?_, ?_, ?_⟩
  · constructor
    · intro p hp
      simp [process_patient, hp]
    · intro h
      have hz : db.patients.countP (fun q => q.resource_id == optStr r ("id")) = 0 := by
        rw [List.countP_eq_zero]
        intro a ha
        have := List.find?_eq_none.mp h a ha
        simpa using this
      exact ⟨by simp [process_patient, h, List.countP_append, hz],
             by simp [process_patient, h, find?_append_right _ _ _ h]⟩
  · constructor
    · intro p hp
      simp [process_encounter, hp]
    · intro h
      have hz : db.encounters.countP (fun q => q.resource_id == optStr r ("id")) = 0 := by
        rw [List.countP_eq_zero]
        intro a ha
        have := List.find?_eq_none.mp h a ha
        simpa using this
      exact ⟨by simp [process_encounter, h, List.countP_append, hz],
             by simp [process_encounter, h, find?_append_right _ _ _ h]⟩
  · constructor
    · intro p hp
      simp [process_condition, hp]
    · intro h
      have hz : db.conditions.countP (fun q => q.resource_id == optStr r ("id")) = 0 := by
        rw [List.countP_eq_zero]
        intro a ha
        have := List.find?_eq_none.mp h a ha
        simpa using this
      exact ⟨by simp [process_condition, h, List.countP_append, hz],
             by simp [process_condition, h, find?_append_right _ _ _ h]⟩
  · constructor
    · intro p hp
      simp [process_observation, hp]
    · intro h
      have hz : db.observations.countP (fun q => q.resource_id == optStr r ("id")) = 0 := by
        rw [List.countP_eq_zero]
        intro a ha
        have := List.find?_eq_none.mp h a ha
        simpa using this
      exact ⟨by simp [process_observation, h, List.countP_append, hz],
             by simp [process_observation, h, find?_append_right _ _ _ h]⟩
  · constructor
    · intro p hp
      simp [process_medication_request, hp]
    · intro h
      have hz : db.medication_requests.countP (fun q => q.resource_id == optStr r ("id")) = 0 := by
        rw [List.countP_eq_zero]
        intro a ha
        have := List.find?_eq_none.mp h a ha
        simpa using this
      exact ⟨by simp [process_medication_request, h, List.countP_append, hz],
             by simp [process_medication_request, h, find?_append_right _ _ _ h]⟩
  · constructor
    · intro p hp
      simp [process_procedure, hp]
    · intro h
      have hz : db.procedures.countP (fun q => q.resource_id == optStr r ("id")) = 0 := by
        rw [List.countP_eq_zero]
        intro a ha
        have := List.find?_eq_none.mp h a ha
        simpa using this
      exact ⟨by simp [process_procedure, h, List.countP_append, hz],
             by simp [process_procedure, h, find?_append_right _ _ _ h]⟩
  · constructor
    · intro p hp
      simp [process_diagnostic_report, hp]
    · intro h
      have hz : db.diagnostic_reports.countP (fun q => q.resource_id == optStr r ("id")) = 0 := by
        rw [List.countP_eq_zero]
        intro a ha
        have := List.find?_eq_none.mp h a ha
        simpa using this
      exact ⟨by simp [process_diagnostic_report, h, List.countP_append, hz],
             by simp [process_diagnostic_report, h, find?_append_right _ _ _ h]⟩
  · constructor
    · intro p hp
      simp [process_document_reference, hp]
    · intro h
      have hz : db.document_references.countP (fun q => q.resource_id == optStr r ("id")) = 0 := by
        rw [List.countP_eq_zero]
        intro a ha
        have := List.find?_eq_none.mp h a ha
        simpa using this
      exact ⟨by simp [process_document_reference, h, List.countP_append, hz],
             by simp [process_document_reference, h, find?_append_right _ _ _ h]⟩
  · constructor
    · intro p hp
      simp [process_allergy_intolerance, hp]
    · intro h
      have hz : db.allergy_intolerances.countP (fun q => q.resource_id == optStr r ("id")) = 0 := by
        rw [List.countP_eq_zero]
        intro a ha
        have := List.find?_eq_none.mp h a ha
        simpa using this
      exact ⟨by simp [process_allergy_intolerance, h, List.countP_append, hz],
             by simp [process_allergy_intolerance, h, find?_append_right _ _ _ h]⟩
  · constructor
    · intro p hp
      simp [process_immunization, hp]
    · intro h
      have hz : db.immunizations.countP (fun q => q.resource_id == optStr r ("id")) = 0 := by
        rw [List.countP_eq_zero]
        intro a ha
        have := List.find?_eq_none.mp h a ha
        simpa using this
      exact ⟨by simp [process_immunization, h, List.countP_append, hz],
             by simp [process_immunization, h, find?_append_right _ _ _ h]⟩
  · constructor
    · intro p hp
      simp [process_practitioner, hp]
    · intro h
      have hz : db.practitioners.countP (fun q => q.resource_id == optStr r ("id")) = 0 := by
        rw [List.countP_eq_zero]
        intro a ha
        have := List.find?_eq_none.mp h a ha
        simpa using this
      exact ⟨by simp [process_practitioner, h, List.countP_append, hz],
             by simp [process_practitioner, h, find?_append_right _ _ _ h]⟩
  · constructor
    · intro p hp
      simp [process_practitioner_role, hp]
    · intro h
      have hz : db.practitioner_roles.countP (fun q => q.resource_id == optStr r ("id")) = 0 := by
        rw [List.countP_eq_zero]
        intro a ha
        have := List.find?_eq_none.mp h a ha
        simpa using this
      exact ⟨by simp [process_practitioner_role, h, List.countP_append, hz],
             by simp [process_practitioner_role, h, find?_append_right _ _ _ h]⟩
  · constructor
    · intro p hp
      simp [process_organization, hp]
    · intro h
      have hz : db.organizations.countP (fun q => q.resource_id == optStr r ("id")) = 0 := by
        rw [List.countP_eq_zero]
        intro a ha
        have := List.find?_eq_none.mp h a ha
        simpa using this
      exact ⟨by simp [process_organization, h, List.countP_append, hz],
             by simp [process_organization, h, find?_append_right _ _ _ h]⟩

/-- A minimal raw patient resource used in closed instantiations. -/
def rPat : JValue := JValue.obj [(("id"), JValue.str ("p1"))]

/-- A stored sanitized patient record with `resource_id = "p1"`. -/
def patRec0 : PatientRecord :=
  ⟨some ("p1"), none, none, none, none, none, none, none, none, none, none, ("")⟩

/-- A store already holding `patRec0`. -/
def dbPat0 : Store := { emptyStore with patients := [patRec0] }

theorem ingest_first_write_wins_idempotent_witness :
    (dbPat0.patients.find? (fun q => q.resource_id == optStr rPat ("id")) = some patRec0 ∧
     process_patient testGen rPat dbPat0 initDeidState = (patRec0, dbPat0, initDeidState)) ∧
    (emptyStore.patients.find? (fun q => q.resource_id == optStr rPat ("id")) = none ∧
     ((process_patient testGen rPat emptyStore initDeidState).2.1.patients.countP
        (fun q => q.resource_id == optStr rPat ("id")) = 1 ∧
      process_patient testGen rPat (process_patient testGen rPat emptyStore initDeidState).2.1
        (process_patient testGen rPat emptyStore initDeidState).2.2
        = ((process_patient testGen rPat emptyStore initDeidState).1,
           (process_patient testGen rPat emptyStore initDeidState).2.1,
           (process_patient testGen rPat emptyStore initDeidState).2.2))) :=
  ⟨⟨rfl, (ingest_first_write_wins_idempotent testGen rPat dbPat0 initDeidState).1.1 patRec0 rfl⟩,
   ⟨rfl, (ingest_first_write_wins_idempotent testGen rPat emptyStore initDeidState).1.2 rfl⟩⟩

/- ===================== C1 ===================== -/

/-- A raw patient resource carrying a Dropped-class government identifier
and original name values. -/
def rPatPII : JValue :=
  JValue.obj
    [(("id"), JValue.str ("patient-pii-1")),
     (("identifier"), JValue.arr [JValue.obj
        [(("system"), JValue.str ("http://hl7.org/fhir/sid/us-ssn")),
         (("value"), JValue.str ("999-12-3456"))]]),
     (("name"), JValue.arr [JValue.obj
        [(("use"), JValue.str ("official")),
         (("family"), JValue.str ("Doe")),
         (("given"), JValue.arr [JValue.str ("John")])]])]

/-- A raw diagnostic report whose conclusion is original free text. -/
def rRepPII : JValue :=
  JValue.obj
    [(("id"), JValue.str ("rep-1")),
     (("conclusion"), JValue.str ("Patient shows signs of anemia"))]

set_option maxRecDepth 100000 in
/-- C1: evaluation at the failing input.  The persisted `raw_fhir_data`
column is `json.dumps(fhir_resource)` of the untransformed upstream
resource, so the stored patient row retains the original Dropped-class
identifier value `999-12-3456` and the original family name `Doe`
verbatim; likewise the stored diagnostic-report row redacts the
structured `conclusion` column but retains the original conclusion text
inside `raw_fhir_data`. -/
theorem raw_payload_stores_original_pii :
    ((process_patient testGen rPatPII emptyStore initDeidState).2.1.patients.any
        (fun p => strContainsB ("999-12-3456") p.raw_fhir_data)) = true ∧
    ((process_patient testGen rPatPII emptyStore initDeidState).2.1.patients.any
        (fun p => strContainsB ("Doe") p.raw_fhir_data)) = true ∧
    (process_patient testGen rPatPII emptyStore initDeidState).1.raw_fhir_data = dumpJ rPatPII ∧
    (process_diagnostic_report testGen rRepPII emptyStore initDeidState).1.conclusion
      = some ("[REDACTED - Clinical Note]") ∧
    strContainsB ("Patient shows signs of anemia")
      (process_diagnostic_report testGen rRepPII emptyStore initDeidState).1.raw_fhir_data
      = true := by
  decide

/- ===================== C6 ===================== -/

/-- The same raw patient resource ingested twice in one batch. -/
def dupData : FhirData :=
  ⟨[rPat, rPat], [], [], [], [], [], [], [], [], [], [], [], []⟩

/-- C6 counterexample: a batch holding the same patient resource twice
reports `patients_created = 2` although only one record is created (the
second processing is a duplicate no-op) — the per-kind counters count
processed resources, not newly created records. -/
theorem ingest_counts_include_skipped_duplicates :
    (ingest_and_deid testGen false dupData emptyStore initDeidState).1.patients_created = 2 ∧
    (ingest_and_deid testGen false dupData emptyStore initDeidState).2.1.patients.length = 1 ∧
    (ingest_and_deid testGen false dupData emptyStore initDeidState).1.files_processed
      = [("Patient")] := by
  decide

theorem processLoop_count {α : Type} (f : JValue → Store → DeidState → α × Store × DeidState) :
    ∀ (l : List JValue) (db : Store) (s : DeidState) (n : Nat),
      (processLoop f l db s n).1 = n + l.length := by
  intro l
  induction l with
  | nil => intro db s n; simp [processLoop]
  | cons r rest ih =>
      intro db s n
      simp [processLoop, ih]
      omega

/-- C6 amended: the ingest operation reports, for each of the thirteen
record kinds, the number of raw resources processed from that kind's
batch — the batch length, counting duplicates skipped as no-ops — and
the list of kinds whose input batch was non-empty, with a fixed success
status. -/
theorem ingest_counts_are_batch_sizes (gen : FakerGen) (ce : Bool) (d : FhirData)
    (db : Store) (s : DeidState) :
    (ingest_and_deid gen ce d db s).1.patients_created = d.Patient.length ∧
    (ingest_and_deid gen ce d db s).1.encounters_created = d.Encounter.length ∧
    (ingest_and_deid gen ce d db s).1.conditions_created = d.Condition.length ∧
    (ingest_and_deid gen ce d db s).1.observations_created = d.Observation.length ∧
    (ingest_and_deid gen ce d db s).1.medication_requests_created = d.MedicationRequest.length ∧
    (ingest_and_deid gen ce d db s).1.procedures_created = d.Procedure.length ∧
    (ingest_and_deid gen ce d db s).1.diagnostic_reports_created = d.DiagnosticReport.length ∧
    (ingest_and_deid gen ce d db s).1.document_references_created = d.DocumentReference.length ∧
    (ingest_and_deid gen ce d db s).1.allergy_intolerances_created = d.AllergyIntolerance.length ∧
    (ingest_and_deid gen ce d db s).1.immunizations_created = d.Immunization.length ∧
    (ingest_and_deid gen ce d db s).1.practitioners_created = d.Practitioner.length ∧
    (ingest_and_deid gen ce d db s).1.practitioner_roles_created = d.PractitionerRole.length ∧
    (ingest_and_deid gen ce d db s).1.organizations_created = d.Organization.length ∧
    (ingest_and_deid gen ce d db s).1.files_processed = filesProcessed d ∧
    (ingest_and_deid gen ce d db s).1.status = ("success") := by
  refine ⟨?_, ?_, ?_, ?_, ?_, ?_, ?_, ?_, ?_, ?_, ?_, ?_, ?_, rfl, rfl⟩ <;>
    simp [ingest_and_deid, processLoop_count]

/- ===================== C10 ===================== -/

theorem runDeletes_error_of_failure (failures : Kind → Option String) :
    ∀ (order : List Kind) (db : Store) (acc : List (String × Nat)),
      (∃ k ∈ order, (failures k).isSome) →
      ∃ e, runDeletes failures order db acc = Except.error e := by
  intro order
  induction order with
  | nil => intro db acc h; simp at h
  | cons k rest ih =>
      intro db acc h
      cases hf : failures k with
      | some e => exact ⟨e, by simp [runDeletes, hf]⟩
      | none =>
          obtain ⟨k', hk', hs⟩ := h
          rcases List.mem_cons.mp hk' with hEq | hMem
          · subst hEq; simp [hf] at hs
          · obtain ⟨e, he⟩ :=
              ih (deleteKind db k).2 (acc ++ [(kindName k, (deleteKind db k).1)]) ⟨k', hMem, hs⟩
            exact ⟨e, by simp [runDeletes, hf, he]⟩

/-- C10: the clear-database endpoint is atomic on error — when any
per-kind delete raises, the transaction rolls back, the committed store
is returned unchanged and an HTTP 500 error result is reported; when no
delete raises, every one of the thirteen kinds is emptied, the deletes
run in the written order with the patient kind last (children first),
and the response reports the per-kind deleted counts. -/
theorem clear_database_atomic_and_complete (failures : Kind → Option String) (db : Store) :
    ((∃ k ∈ deleteOrder, (failures k).isSome) →
      ((clear_database failures db).2 = db ∧
       ∃ d, (clear_database failures db).1 = ClearResult.httpError d)) ∧
    ((∀ k, failures k = none) →
      ((clear_database failures db).2 = emptyStore ∧
       ∃ msg, (clear_database failures db).1 = ClearResult.ok ("success") msg
         [(("document_references"), db.document_references.length),
          (("allergy_intolerances"), db.allergy_intolerances.length),
          (("immunizations"), db.immunizations.length),
          (("diagnostic_reports"), db.diagnostic_reports.length),
          (("procedures"), db.procedures.length),
          (("medication_requests"), db.medication_requests.length),
          (("observations"), db.observations.length),
          (("conditions"), db.conditions.length),
          (("practitioner_roles"), db.practitioner_roles.length),
          (("practitioners"), db.practitioners.length),
          (("organizations"), db.organizations.length),
          (("encounters"), db.encounters.length),
          (("patients"), db.patients.length)])) ∧
    deleteOrder.getLast? = some Kind.patients ∧
    (∀ k : Kind, k ∈ deleteOrder) := by
  refine ⟨?_, ?_, rfl, ?_⟩
  · intro h
    obtain ⟨e, he⟩ := runDeletes_error_of_failure failures deleteOrder db [] h
    constructor
    · simp [clear_database, he]
    · exact ⟨("Error clearing database: ") ++ e, by simp [clear_database, he]⟩
  · intro hAll
    have hrun : runDeletes failures deleteOrder db [] =
        Except.ok
          ([(("document_references"), db.document_references.length),
            (("allergy_intolerances"), db.allergy_intolerances.length),
            (("immunizations"), db.immunizations.length),
            (("diagnostic_reports"), db.diagnostic_reports.length),
            (("procedures"), db.procedures.length),
            (("medication_requests"), db.medication_requests.length),
            (("observations"), db.observations.length),
            (("conditions"), db.conditions.length),
            (("practitioner_roles"), db.practitioner_roles.length),
            (("practitioners"), db.practitioners.length),
            (("organizations"), db.organizations.length),
            (("encounters"), db.encounters.length),
            (("patients"), db.patients.length)], emptyStore) := by
      simp [deleteOrder, runDeletes, hAll, deleteKind, kindName, emptyStore]
    constructor
    · simp [clear_database, hrun]
    · refine ⟨("Database cleared successfully. ") ++
        toString (db.document_references.length +
          (db.allergy_intolerances.length +
            (db.immunizations.length +
              (db.diagnostic_reports.length +
                (db.procedures.length +
                  (db.medication_requests.length +
                    (db.observations.length +
                      (db.conditions.length +
                        (db.practitioner_roles.length +
                          (db.practitioners.length +
                            (db.organizations.length +
                              (db.encounters.length + db.patients.length)))))))))))) ++
        (" total records deleted."), ?_⟩
      simp [clear_database, hrun]
  · intro k
    cases k <;> simp [deleteOrder]

theorem clear_database_atomic_and_complete_witness :
    ((clear_database (fun _ => some ("boom")) dbPat0).2 = dbPat0 ∧
     ∃ d, (clear_database (fun _ => some ("boom")) dbPat0).1 = ClearResult.httpError d) ∧
    ((clear_database (fun _ => none) dbPat0).2 = emptyStore ∧
     ∃ msg, (clear_database (fun _ => none) dbPat0).1 = ClearResult.ok ("success") msg
       [(("document_references"), dbPat0.document_references.length),
        (("allergy_intolerances"), dbPat0.allergy_intolerances.length),
        (("immunizations"), dbPat0.immunizations.length),
        (("diagnostic_reports"), dbPat0.diagnostic_reports.length),
        (("procedures"), dbPat0.procedures.length),
        (("medication_requests"), dbPat0.medication_requests.length),
        (("observations"), dbPat0.observations.length),
        (("conditions"), dbPat0.conditions.length),
        (("practitioner_roles"), dbPat0.practitioner_roles.length),
        (("practitioners"), dbPat0.practitioners.length),
        (("organizations"), dbPat0.organizations.length),
        (("encounters"), dbPat0.encounters.length),
        (("patients"), dbPat0.patients.length)]) :=
  ⟨(clear_database_atomic_and_complete (fun _ => some ("boom")) dbPat0).1
     ⟨Kind.document_references, by decide, by decide⟩,
   (clear_database_atomic_and_complete (fun _ => none) dbPat0).2.1 (fun _ => rfl)⟩
